import Mathlib

/-!
# Spike predictor: shallow embedding of `src/spike_predictor.cpp`

The per-sample step `SpikePredictor::execute`, its helpers `filter` and
`calculate_slope`, `initParameters` and `update` are translated function by
function.

Modelling conventions
* `double` is modelled by `ℚ` (exact arithmetic, no NaN / infinity, no rounding).
  `x / 0` is `0` in `ℚ`, where IEEE arithmetic gives NaN or an infinity; a
  property of a value obtained by a division is stated only where the divisor
  is non-zero.
* `int` is modelled by `Int` (no wrap-around); `%` on `int` is the truncating
  `Int.tmod`, the conversion `double → int` is truncation toward zero.
* A `std::vector<double>` is a `DVec`: its `size` and the value `data i` that
  `vec[i]` denotes.  `operator[]` performs no bounds check, so for `i` outside
  `[0, size)` the value `data i` stands for whatever lies at that address; it is
  never constrained by an initialiser.
* The members `time_from_peak`, `t_after`, `got_spike`, `update_in_this_cycle`
  are used by `spike_predictor.cpp` but not declared in `spike_predictor.h`;
  their types are read off their uses (`double`, `int`, `bool`, `bool`).
  The member `backtime` is declared and never used; it is left out.
* The nine output ports `output(0..8)` keep their value between calls, so they
  are part of the state.
-/

namespace SpikePredictor

/-- Conversion `double → int` of C++: truncation toward zero. -/
def toInt (q : ℚ) : Int := Int.tdiv q.num q.den

/-- A `std::vector<double>` as seen through `size()` and the unchecked `operator[]`. -/
structure DVec where
  size : Nat
  data : Int → ℚ

/-- The assignment `vec[i] = x`. -/
def DVec.set (vec : DVec) (i : Int) (x : ℚ) : DVec :=
  { vec with data := fun j => if j = i then x else vec.data j }

/-- The call `vec.resize(n, val)`: elements below the old size are kept, new ones are `val`. -/
def DVec.resize (vec : DVec) (n : Nat) (val : ℚ) : DVec :=
  { size := n
    data := fun j => if (vec.size : Int) ≤ j ∧ j < (n : Int) then val else vec.data j }

/-- Predicate `i` is a valid index of `vec`. -/
def DVec.inRange (vec : DVec) (i : Int) : Prop := 0 ≤ i ∧ i < (vec.size : Int)

/-- The data members of `class SpikePredictor` together with the output ports. -/
structure State where
  period : ℚ
  th_spike : ℚ
  th_calculated : ℚ
  sl_calculated : ℚ
  curr_slope : ℚ
  updatable : Bool
  switch_th : Bool
  n_points : Int
  n_p_slope : Int
  sum : ℚ
  sum_reset_param : ℚ
  th_sum_param : ℚ
  sum_error : ℚ
  sum_min : ℚ
  th_sum_calculated : ℚ
  sum_reset : ℚ
  slope_th_param : ℚ
  vector_size : Int
  cycle : Int
  v_list : DVec
  sum_list : DVec
  th_sum_buff : DVec
  n_spikes : Int
  time_from_peak : ℚ
  t_after : Int
  got_spike : Bool
  update_in_this_cycle : Bool
  output : Nat → ℚ

/-- The two input ports read by one call of `execute`: `input(0)` and `input(1)`. -/
structure Input where
  v : ℚ
  sum_reset : ℚ

/-- The assignment `output(k) = x`. -/
def setOutput (out : Nat → ℚ) (k : Nat) (x : ℚ) : Nat → ℚ :=
  fun j => if j = k then x else out j

/-- A C++ `bool` stored into a `double` port. -/
def boolToDouble (b : Prop) [Decidable b] : ℚ := if b then 1 else 0

/-- The function `SpikePredictor::filter` (lines 103-121); `vector_size` is the member it reads. -/
def filter (vector_size : Int) (signal : DVec) (cycle : Int) (v : ℚ) (n_points : Int) : ℚ :=
  if n_points = 0 then v
  else
    let perc : ℚ := 0.7 / (n_points : ℚ)
    (List.range n_points.toNat).foldl
      (fun (fv : ℚ) (k : Nat) =>
        fv + signal.data (Int.tmod (vector_size + cycle - ((k : Int) + 1)) vector_size) * perc)
      (v * 0.3)

/-- The function `SpikePredictor::calculate_slope` (lines 123-127). -/
def calculate_slope (x1 x2 dt : ℚ) : ℚ := (x2 - x1) / (-dt)

/-- The local `time_from_peak_points` of `execute` (line 133). -/
def time_from_peak_points (s : State) : Int := toInt (s.time_from_peak / s.period)

/-- Lines 134-151 of `execute`: latch `input(1)`, filter and store the sample, current slope. -/
def save_data (s : State) (inp : Input) : State :=
  let v_filtered := filter s.vector_size s.v_list s.cycle inp.v s.n_points
  let v_list := s.v_list.set s.cycle v_filtered
  let x1 := v_list.data (Int.tmod (s.vector_size + s.cycle) s.vector_size)
  let x2 := v_list.data (Int.tmod (s.vector_size + s.cycle - s.n_p_slope) s.vector_size)
  let curr_slope := calculate_slope x1 x2 ((s.n_p_slope : ℚ) * s.period)
  { s with
    sum_reset := inp.sum_reset
    v_list := v_list
    curr_slope := curr_slope
    output := setOutput (setOutput s.output 0 v_filtered) 4 curr_slope }

/-- Lines 153-189 of `execute`: spike detection and the post-peak countdown. -/
def detect (s : State) (v : ℚ) (tfpp : Int) : State :=
  if s.got_spike = false then
    if v > s.th_spike ∧ s.switch_th = true then
      if v < s.v_list.data (s.cycle - 3) then
        if s.time_from_peak ≤ 0 then
          { s with n_spikes := s.n_spikes + 1, updatable := true, update_in_this_cycle := true }
        else
          { s with n_spikes := s.n_spikes + 1, t_after := 0 }
      else s
    else s
  else
    if s.t_after < tfpp then { s with t_after := s.t_after + 1 }
    else if s.t_after = tfpp then
      { s with update_in_this_cycle := true, t_after := 0, got_spike := false }
    else s

/-- The nested conditions of lines 154, 157 and 158 under which `detect` counts a spike. -/
def spike_test (s : State) (v : ℚ) : Prop :=
  s.got_spike = false ∧ (v > s.th_spike ∧ s.switch_th = true) ∧ v < s.v_list.data (s.cycle - 3)

instance (s : State) (v : ℚ) : Decidable (spike_test s v) := by
  unfold spike_test; infer_instance

/-- The local `allow_reset` after lines 153-189: line 172 assigns it `1` when a spike is counted. -/
def detect_allow_reset (s : State) (v : ℚ) (allow_reset : Int) : Int :=
  if spike_test s v then 1 else allow_reset

/-- Lines 192-214 of `execute`: the threshold recomputation. -/
def recompute (s : State) (tfpp : Int) : State :=
  if s.update_in_this_cycle = true then
    let th_calculated := s.v_list.data (Int.tmod (s.vector_size + s.cycle - tfpp) s.vector_size)
    let x1 := s.v_list.data (Int.tmod (s.vector_size + s.cycle - tfpp) s.vector_size)
    let x2 := s.v_list.data (Int.tmod (s.vector_size + s.cycle - tfpp - s.n_p_slope) s.vector_size)
    let sl_calculated := calculate_slope x1 x2 ((s.n_p_slope : ℚ) * s.period)
    let raw := s.sum_list.data (Int.tmod (s.vector_size + s.cycle - tfpp) s.vector_size)
    let buff := s.th_sum_buff.set (Int.tmod s.n_spikes 10) raw
    { s with
      switch_th := false
      th_calculated := th_calculated
      sl_calculated := sl_calculated
      th_sum_buff := buff
      th_sum_calculated :=
        (raw + buff.data (Int.tmod s.n_spikes 10 - 1) + buff.data (Int.tmod s.n_spikes 10 - 2)) / 3
      update_in_this_cycle := false
      output := setOutput (setOutput s.output 1 th_calculated) 2 sl_calculated }
  else s

/-- Lines 217-222 of `execute`: re-arming below the firing threshold. -/
def rearm (s : State) (v : ℚ) : State :=
  if s.switch_th = false ∧ v < s.th_spike then { s with switch_th := true } else s

/-- Lines 224-228 of `execute`: the reset reference is the input when non-zero, else the latched one. -/
def latch_reset (s : State) : State :=
  if s.sum_reset ≠ 0 then { s with sum_reset_param := s.sum_reset }
  else { s with sum_reset := s.sum_reset_param }

/-- The condition of line 230, evaluated after `latch_reset`. -/
def reset_fires (s : State) (v : ℚ) (allow_reset : Int) : Prop :=
  allow_reset ≠ 0 ∧ v - s.sum_reset < s.sum_error

instance (s : State) (v : ℚ) (allow_reset : Int) : Decidable (reset_fires s v allow_reset) := by
  unfold reset_fires; infer_instance

/-- Lines 224-239 of `execute`: conditional reset, accumulation, store into `sum_list`. -/
def integrate (s : State) (v : ℚ) (allow_reset : Int) : State :=
  let s1 := latch_reset s
  let sum := (if reset_fires s1 v allow_reset then 0 else s1.sum) + v
  { s1 with
    sum := sum
    sum_list := s1.sum_list.set s1.cycle sum
    output := setOutput s1.output 5 sum }

/-- Lines 241-247 of `execute`: the two parameter overrides and `output(3)`. -/
def overrides (s : State) : State :=
  let th_sum_calculated := if s.th_sum_param < 0 then s.th_sum_param else s.th_sum_calculated
  { s with
    th_sum_calculated := th_sum_calculated
    output := setOutput s.output 3 th_sum_calculated
    sl_calculated := if s.slope_th_param < -1000 then s.slope_th_param else s.sl_calculated }

/-- Lines 249-266 of `execute`: minimum of the sum and the three crossing outputs. -/
def update_states (s : State) (v : ℚ) : State :=
  let s1 := if s.sum < s.sum_min then { s with sum_min := s.sum } else s
  if s1.updatable = true then
    { s1 with
      output :=
        setOutput
          (setOutput
            (setOutput s1.output 6 (boolToDouble (s1.sum < s1.th_sum_calculated)))
            7 (boolToDouble (v > s1.th_calculated)))
          8 (boolToDouble (s1.curr_slope > s1.sl_calculated)) }
  else
    { s1 with output := setOutput (setOutput (setOutput s1.output 6 0) 7 0) 8 0 }

/-- Lines 269-273 of `execute`: advance the write position. -/
def next_cycle (s : State) : State :=
  if s.vector_size = s.cycle + 1 then { s with cycle := 0 } else { s with cycle := s.cycle + 1 }

/-- The state after lines 132-214: data saved, detection done, recomputation done. -/
def after_recompute (s : State) (inp : Input) : State :=
  recompute (detect (save_data s inp) inp.v (time_from_peak_points s)) (time_from_peak_points s)

/-- The state after lines 132-239: re-armed and integrated as well. -/
def after_integrate (s : State) (inp : Input) : State :=
  integrate (rearm (after_recompute s inp) inp.v) inp.v
    (detect_allow_reset (save_data s inp) inp.v 1)

/-- The method `SpikePredictor::execute` (lines 129-277): one step on one sample. -/
def execute (s : State) (inp : Input) : State :=
  next_cycle (update_states (overrides (after_integrate s inp)) inp.v)

/-- Successive calls of `execute`, one per input sample. -/
def run (s : State) : List Input → State
  | [] => s
  | inp :: rest => run (execute s inp) rest

/-- The method `SpikePredictor::initParameters` (lines 279-315). -/
def initParameters (s : State) : State :=
  { s with
    vector_size := 10 * 4000
    cycle := 0
    v_list := s.v_list.resize (10 * 4000) 0
    sum_list := s.sum_list.resize (10 * 4000) 0
    switch_th := false
    time_from_peak := 0
    th_spike := 0
    n_points := 0
    n_p_slope := 0
    th_calculated := 0
    th_sum_calculated := -0.05
    sl_calculated := 0
    th_sum_buff := s.th_sum_buff.resize (10 * 4000) 0
    sum := 0
    sum_reset_param := -0.05
    th_sum_param := 5
    sum_error := 0.003
    sum_min := 100
    slope_th_param := -1000
    sum_reset := 0
    got_spike := false
    update_in_this_cycle := false
    updatable := true
    n_spikes := 0 }

/-- The values the host framework hands to `update`: the period in ns and the GUI parameters. -/
structure Host where
  getPeriod : ℚ
  firing_threshold : ℚ
  time_from_peak : ℚ
  n_points_filter : ℚ
  n_points_slope : ℚ
  sum_init : ℚ
  accumulated_sum_threshold : ℚ
  accumulated_sum_threshold_error : ℚ
  slope_threshold : ℚ

/-- The flags of `DefaultGUIModel::update_flags_t` that `update` switches on. -/
inductive update_flags_t where
  | INIT | MODIFY | UNPAUSE | PAUSE | PERIOD

/-- The method `SpikePredictor::update` (lines 317-367). -/
def update (h : Host) (s : State) : update_flags_t → State
  | .INIT => { s with period := h.getPeriod * 1e-6 }
  | .MODIFY =>
    { s with
      th_spike := h.firing_threshold
      time_from_peak := h.time_from_peak
      n_points := toInt h.n_points_filter
      n_p_slope := toInt h.n_points_slope
      sum_reset_param := h.sum_init
      th_sum_param := h.accumulated_sum_threshold
      sum_error := h.accumulated_sum_threshold_error
      slope_th_param := h.slope_threshold }
  | .UNPAUSE => s
  | .PAUSE => s
  | .PERIOD => { s with period := h.getPeriod * 1e-6 }

/-- The members as they are when the constructor body starts: the three vectors are empty. -/
def defaultMembers (mem : State) : State :=
  { mem with
    v_list := { mem.v_list with size := 0 }
    sum_list := { mem.sum_list with size := 0 }
    th_sum_buff := { mem.th_sum_buff with size := 0 } }

/-- The constructor (lines 83-96): `initParameters()` followed by `update(INIT)`. -/
def construct (h : Host) (mem : State) : State :=
  update h (initParameters (defaultMembers mem)) .INIT

/-- The range invariant on the write position. -/
def cycle_in_range (s : State) : Prop := 0 ≤ s.cycle ∧ s.cycle < s.vector_size

instance (s : State) : Decidable (cycle_in_range s) := by
  unfold cycle_in_range; infer_instance

/-- A concrete host: period 100000 ns (0.1 ms), GUI parameters at the values of `initParameters`. -/
def host0 : Host :=
  { getPeriod := 100000
    firing_threshold := 0
    time_from_peak := 0
    n_points_filter := 0
    n_points_slope := 0
    sum_init := -0.05
    accumulated_sum_threshold := 5
    accumulated_sum_threshold_error := 0.003
    slope_threshold := -1000 }

/-- A concrete memory image for the members before construction: everything zero. -/
def zeroMem : State :=
  { period := 0, th_spike := 0, th_calculated := 0, sl_calculated := 0, curr_slope := 0
    updatable := false, switch_th := false, n_points := 0, n_p_slope := 0, sum := 0
    sum_reset_param := 0, th_sum_param := 0, sum_error := 0, sum_min := 0
    th_sum_calculated := 0, sum_reset := 0, slope_th_param := 0, vector_size := 0, cycle := 0
    v_list := ⟨0, fun _ => 0⟩, sum_list := ⟨0, fun _ => 0⟩, th_sum_buff := ⟨0, fun _ => 0⟩
    n_spikes := 0, time_from_peak := 0, t_after := 0, got_spike := false
    update_in_this_cycle := false, output := fun _ => 0 }

/-- The host of the ramp scenario: firing threshold `-0.02`, no filter, slope window `5`. -/
def host5 : Host :=
  { host0 with firing_threshold := -0.02, time_from_peak := 0, n_points_filter := 0, n_points_slope := 5 }

/-- The detector of the ramp scenario: constructed, then `update(MODIFY)` with `host5`. -/
def scenario5 : State := update host5 (construct host5 zeroMem) .MODIFY

/-- The scenario detector after the samples `1, 1, -1`: armed, `cycle = 3`, `v_list[0] = 1`. -/
def armed3 : State := run scenario5 [⟨1, 0⟩, ⟨1, 0⟩, ⟨-1, 0⟩]

/-- A voltage ramp through the threshold `-0.02` and the first sample of its way back. -/
def ramp : List Input :=
  [⟨-0.05, 0⟩, ⟨-0.04, 0⟩, ⟨-0.03, 0⟩, ⟨-0.015, 0⟩, ⟨-0.01, 0⟩, ⟨-0.005, 0⟩, ⟨-0.012, 0⟩]

/-- The ramp scenario with a positive `time_from_peak` of 1 ms (10 sample periods). -/
def scenario6 : State :=
  update { host5 with time_from_peak := 1 } (construct host5 zeroMem) .MODIFY

/-- The ramp scenario with the slope threshold parameter set to `1`. -/
def scenario7 : State :=
  update { host5 with slope_threshold := 1 } (construct host5 zeroMem) .MODIFY

/-- The ramp scenario with the accumulated-sum threshold parameter set to `-2`. -/
def scenario8 : State :=
  update { host5 with accumulated_sum_threshold := -2 } (construct host5 zeroMem) .MODIFY

/-- The condition of line 230 as one call of `execute` evaluates it. -/
def reset_in_step (s : State) (inp : Input) : Prop :=
  reset_fires (latch_reset (rearm (after_recompute s inp) inp.v)) inp.v
    (detect_allow_reset (save_data s inp) inp.v 1)

instance (s : State) (inp : Input) : Decidable (reset_in_step s inp) := by
  unfold reset_in_step; infer_instance

/-- The reset reference of a step: `input(1)` when non-zero, else the latched `sum_reset_param`. -/
def reset_reference (s : State) (inp : Input) : ℚ :=
  if inp.sum_reset ≠ 0 then inp.sum_reset else s.sum_reset_param

/-- No call of `execute` along the run of `ins` from `s` resets the sum. -/
def no_resets : State → List Input → Prop
  | _, [] => True
  | s, inp :: rest => ¬ reset_in_step s inp ∧ no_resets (execute s inp) rest

instance (s : State) (ins : List Input) : Decidable (no_resets s ins) := by
  induction ins generalizing s with
  | nil => exact isTrue trivial
  | cons inp rest ih => unfold no_resets; exact instDecidableAnd

/-- The samples `input(0)` of a list of inputs, added up from the left. -/
def total (ins : List Input) : ℚ := (ins.map Input.v).sum

/-! ### Definitions for the remaining properties -/

/-- The reference definition of the filter in the words of the specification: pass-through for a
zero window, else `0.3 * v` plus the sum over `i = 1..w` of `(0.7 / w) * buf[(N + cycle - i) mod N]`. -/
def filter_reference (N : Int) (buf : DVec) (cycle : Int) (v : ℚ) (w : Nat) : ℚ :=
  if w = 0 then v
  else 0.3 * v + Finset.sum (Finset.Icc 1 w) (fun i => (0.7 / (w : ℚ)) * buf.data ((N + cycle - (i : Int)) % N))

/-- The indices at which `filter` reads `signal` (line 116), in loop order. -/
def filter_indices (vector_size cycle n_points : Int) : List Int :=
  if n_points = 0 then []
  else (List.range n_points.toNat).map
    (fun (k : Nat) => Int.tmod (vector_size + cycle - ((k : Int) + 1)) vector_size)

/-- The third argument of `calculate_slope` at lines 150 and 204: `n_p_slope*period`. -/
def slope_dt (s : State) : ℚ := (s.n_p_slope : ℚ) * s.period

/-- The flag `update_in_this_cycle` as line 192 of a call of `execute` finds it. -/
def recomputation_fires (s : State) (inp : Input) : Prop :=
  (detect (save_data s inp) inp.v (time_from_peak_points s)).update_in_this_cycle = true

instance (s : State) (inp : Input) : Decidable (recomputation_fires s inp) := by
  unfold recomputation_fires; infer_instance

/-- The indices at which one call of `execute` reads or writes `v_list`, in program order:
the reads of `filter` (line 116), the write of line 141, the reads of lines 148-149, the read
of line 158 when the conditions of lines 154 and 157 hold, and the reads of lines 197, 201, 202
when the recomputation runs. -/
def v_list_indices (s : State) (inp : Input) : List Int :=
  filter_indices s.vector_size s.cycle s.n_points
    ++ [s.cycle]
    ++ [Int.tmod (s.vector_size + s.cycle) s.vector_size,
        Int.tmod (s.vector_size + s.cycle - s.n_p_slope) s.vector_size]
    ++ (if s.got_spike = false ∧ (inp.v > s.th_spike ∧ s.switch_th = true) then [s.cycle - 3] else [])
    ++ (if recomputation_fires s inp then
          [Int.tmod (s.vector_size + s.cycle - time_from_peak_points s) s.vector_size,
           Int.tmod (s.vector_size + s.cycle - time_from_peak_points s) s.vector_size,
           Int.tmod (s.vector_size + s.cycle - time_from_peak_points s - s.n_p_slope) s.vector_size]
        else [])

/-- The indices at which one call of `execute` reads or writes `sum_list`: the read of line 208
when the recomputation runs, and the write of line 238. -/
def sum_list_indices (s : State) (inp : Input) : List Int :=
  (if recomputation_fires s inp then
    [Int.tmod (s.vector_size + s.cycle - time_from_peak_points s) s.vector_size] else [])
    ++ [s.cycle]

/-- The value of `n_spikes` that the recomputation of a call of `execute` uses (lines 211-212). -/
def n_spikes_at_recompute (s : State) (inp : Input) : Int :=
  (detect (save_data s inp) inp.v (time_from_peak_points s)).n_spikes

/-- The indices at which one call of `execute` accesses `th_sum_buff` (lines 211-212): the write
at `n_spikes%10` and the reads at `(n_spikes%10)-1` and `(n_spikes%10)-2`, when the recomputation
runs. -/
def th_sum_buff_indices (s : State) (inp : Input) : List Int :=
  if recomputation_fires s inp then
    [Int.tmod (n_spikes_at_recompute s inp) 10,
     Int.tmod (n_spikes_at_recompute s inp) 10 - 1,
     Int.tmod (n_spikes_at_recompute s inp) 10 - 2]
  else []

/-- The value `x` lies between `0` and `v` and is short of `v` (for `v ≠ 0`; the sign of `v` is free). -/
def short_of (v x : ℚ) : Prop := 0 ≤ x * v ∧ x * v < v * v

/-- The state invariant of a run on the constant sample `v`: write position in range, a filter
window between `1` and `vector_size`, and every stored filtered value short of `v`. -/
def filtered_short_of (v : ℚ) (s : State) : Prop :=
  cycle_in_range s ∧ 1 ≤ s.n_points ∧ s.n_points ≤ s.vector_size ∧
    ∀ i : Int, 0 ≤ i → i < s.vector_size → short_of v (s.v_list.data i)

/-- The detector of the ramp scenario with a filter window of one point. -/
def scenario12 : State :=
  update { host5 with n_points_filter := 1 } (construct host5 zeroMem) .MODIFY

instance (vec : DVec) (i : Int) : Decidable (vec.inRange i) := by
  unfold DVec.inRange; infer_instance

/-- The ramp scenario with the slope threshold parameter set to `-2000`, below `-1000`. -/
def scenario14 : State :=
  update { host5 with slope_threshold := -2000 } (construct host5 zeroMem) .MODIFY

/-- Four samples that produce one spike in the ramp scenario once `cycle ≥ 3`: two samples `0.02`
above the threshold, a sample `-0.05` below it (re-arming), and `0.01`, above the threshold and
below the sample three cycles earlier. -/
def spike_pattern : List Input := [⟨0.02, 0⟩, ⟨0.02, 0⟩, ⟨-0.05, 0⟩, ⟨0.01, 0⟩]

/-- Nine repetitions of `spike_pattern` followed by the first three samples of a tenth. -/
def before_tenth_spike : List Input :=
  (List.replicate 9 spike_pattern).flatten ++ [⟨0.02, 0⟩, ⟨0.02, 0⟩, ⟨-0.05, 0⟩]

/-- The invariant of a run with a positive `time_from_peak`: no spike pending, no recomputation
requested, and `th_calculated` still at its initial value. -/
def waiting_forever (s : State) : Prop :=
  s.got_spike = false ∧ s.update_in_this_cycle = false ∧ 0 < s.time_from_peak ∧ s.th_calculated = 0

/-- The value `x` falls short of `v` by a positive amount that is at most the fraction `B` of `v`:
`0 < (v - x) * v ≤ B * v²` (the sign of `v` is free). -/
def within (v B x : ℚ) : Prop := 0 < v * v - x * v ∧ v * v - x * v ≤ B * (v * v)

/-- The state invariant of a run on the constant sample `v` with a filter window of `w` points:
each of the `w` values that `filter` will read falls short of `v` by at most `0.7 ^ m`, and the
`j` most recent of them by at most `0.7 ^ (m + 1)`. -/
def window_within (v : ℚ) (w m j : Nat) (s : State) : Prop :=
  cycle_in_range s ∧ s.n_points = (w : Int) ∧ (w : Int) ≤ s.vector_size ∧
    ∀ k : Nat, k < w →
      within v (0.7 ^ m)
        (s.v_list.data (Int.tmod (s.vector_size + s.cycle - ((k : Int) + 1)) s.vector_size)) ∧
      (k < j → within v (0.7 ^ (m + 1))
        (s.v_list.data (Int.tmod (s.vector_size + s.cycle - ((k : Int) + 1)) s.vector_size)))

/-- The ramp scenario with the slope threshold parameter `-2000` and the accumulated-sum
threshold parameter `-2`: neither is above `-1000`, respectively non-negative. -/
def scenario18 : State :=
  update { host5 with slope_threshold := -2000, accumulated_sum_threshold := -2 }
    (construct host5 zeroMem) .MODIFY

/-! ## Frame lemmas: the members each stage of `execute` leaves alone -/

@[simp] theorem save_data_period (s : State) (inp : Input) :
    (save_data s inp).period = s.period := rfl
@[simp] theorem save_data_th_spike (s : State) (inp : Input) :
    (save_data s inp).th_spike = s.th_spike := rfl
@[simp] theorem save_data_th_calculated (s : State) (inp : Input) :
    (save_data s inp).th_calculated = s.th_calculated := rfl
@[simp] theorem save_data_sl_calculated (s : State) (inp : Input) :
    (save_data s inp).sl_calculated = s.sl_calculated := rfl
@[simp] theorem save_data_updatable (s : State) (inp : Input) :
    (save_data s inp).updatable = s.updatable := rfl
@[simp] theorem save_data_switch_th (s : State) (inp : Input) :
    (save_data s inp).switch_th = s.switch_th := rfl
@[simp] theorem save_data_n_points (s : State) (inp : Input) :
    (save_data s inp).n_points = s.n_points := rfl
@[simp] theorem save_data_n_p_slope (s : State) (inp : Input) :
    (save_data s inp).n_p_slope = s.n_p_slope := rfl
@[simp] theorem save_data_sum (s : State) (inp : Input) :
    (save_data s inp).sum = s.sum := rfl
@[simp] theorem save_data_sum_reset_param (s : State) (inp : Input) :
    (save_data s inp).sum_reset_param = s.sum_reset_param := rfl
@[simp] theorem save_data_th_sum_param (s : State) (inp : Input) :
    (save_data s inp).th_sum_param = s.th_sum_param := rfl
@[simp] theorem save_data_sum_error (s : State) (inp : Input) :
    (save_data s inp).sum_error = s.sum_error := rfl
@[simp] theorem save_data_sum_min (s : State) (inp : Input) :
    (save_data s inp).sum_min = s.sum_min := rfl
@[simp] theorem save_data_th_sum_calculated (s : State) (inp : Input) :
    (save_data s inp).th_sum_calculated = s.th_sum_calculated := rfl
@[simp] theorem save_data_slope_th_param (s : State) (inp : Input) :
    (save_data s inp).slope_th_param = s.slope_th_param := rfl
@[simp] theorem save_data_vector_size (s : State) (inp : Input) :
    (save_data s inp).vector_size = s.vector_size := rfl
@[simp] theorem save_data_cycle (s : State) (inp : Input) :
    (save_data s inp).cycle = s.cycle := rfl
@[simp] theorem save_data_sum_list (s : State) (inp : Input) :
    (save_data s inp).sum_list = s.sum_list := rfl
@[simp] theorem save_data_th_sum_buff (s : State) (inp : Input) :
    (save_data s inp).th_sum_buff = s.th_sum_buff := rfl
@[simp] theorem save_data_n_spikes (s : State) (inp : Input) :
    (save_data s inp).n_spikes = s.n_spikes := rfl
@[simp] theorem save_data_time_from_peak (s : State) (inp : Input) :
    (save_data s inp).time_from_peak = s.time_from_peak := rfl
@[simp] theorem save_data_t_after (s : State) (inp : Input) :
    (save_data s inp).t_after = s.t_after := rfl
@[simp] theorem save_data_got_spike (s : State) (inp : Input) :
    (save_data s inp).got_spike = s.got_spike := rfl
@[simp] theorem save_data_update_in_this_cycle (s : State) (inp : Input) :
    (save_data s inp).update_in_this_cycle = s.update_in_this_cycle := rfl

@[simp] theorem detect_period (s : State) (v : ℚ) (t : Int) :
    (detect s v t).period = s.period := by unfold detect; split_ifs <;> rfl
@[simp] theorem detect_th_spike (s : State) (v : ℚ) (t : Int) :
    (detect s v t).th_spike = s.th_spike := by unfold detect; split_ifs <;> rfl
@[simp] theorem detect_th_calculated (s : State) (v : ℚ) (t : Int) :
    (detect s v t).th_calculated = s.th_calculated := by unfold detect; split_ifs <;> rfl
@[simp] theorem detect_sl_calculated (s : State) (v : ℚ) (t : Int) :
    (detect s v t).sl_calculated = s.sl_calculated := by unfold detect; split_ifs <;> rfl
@[simp] theorem detect_curr_slope (s : State) (v : ℚ) (t : Int) :
    (detect s v t).curr_slope = s.curr_slope := by unfold detect; split_ifs <;> rfl
@[simp] theorem detect_switch_th (s : State) (v : ℚ) (t : Int) :
    (detect s v t).switch_th = s.switch_th := by unfold detect; split_ifs <;> rfl
@[simp] theorem detect_n_points (s : State) (v : ℚ) (t : Int) :
    (detect s v t).n_points = s.n_points := by unfold detect; split_ifs <;> rfl
@[simp] theorem detect_n_p_slope (s : State) (v : ℚ) (t : Int) :
    (detect s v t).n_p_slope = s.n_p_slope := by unfold detect; split_ifs <;> rfl
@[simp] theorem detect_sum (s : State) (v : ℚ) (t : Int) :
    (detect s v t).sum = s.sum := by unfold detect; split_ifs <;> rfl
@[simp] theorem detect_sum_reset_param (s : State) (v : ℚ) (t : Int) :
    (detect s v t).sum_reset_param = s.sum_reset_param := by unfold detect; split_ifs <;> rfl
@[simp] theorem detect_th_sum_param (s : State) (v : ℚ) (t : Int) :
    (detect s v t).th_sum_param = s.th_sum_param := by unfold detect; split_ifs <;> rfl
@[simp] theorem detect_sum_error (s : State) (v : ℚ) (t : Int) :
    (detect s v t).sum_error = s.sum_error := by unfold detect; split_ifs <;> rfl
@[simp] theorem detect_sum_min (s : State) (v : ℚ) (t : Int) :
    (detect s v t).sum_min = s.sum_min := by unfold detect; split_ifs <;> rfl
@[simp] theorem detect_th_sum_calculated (s : State) (v : ℚ) (t : Int) :
    (detect s v t).th_sum_calculated = s.th_sum_calculated := by unfold detect; split_ifs <;> rfl
@[simp] theorem detect_sum_reset (s : State) (v : ℚ) (t : Int) :
    (detect s v t).sum_reset = s.sum_reset := by unfold detect; split_ifs <;> rfl
@[simp] theorem detect_slope_th_param (s : State) (v : ℚ) (t : Int) :
    (detect s v t).slope_th_param = s.slope_th_param := by unfold detect; split_ifs <;> rfl
@[simp] theorem detect_vector_size (s : State) (v : ℚ) (t : Int) :
    (detect s v t).vector_size = s.vector_size := by unfold detect; split_ifs <;> rfl
@[simp] theorem detect_cycle (s : State) (v : ℚ) (t : Int) :
    (detect s v t).cycle = s.cycle := by unfold detect; split_ifs <;> rfl
@[simp] theorem detect_v_list (s : State) (v : ℚ) (t : Int) :
    (detect s v t).v_list = s.v_list := by unfold detect; split_ifs <;> rfl
@[simp] theorem detect_sum_list (s : State) (v : ℚ) (t : Int) :
    (detect s v t).sum_list = s.sum_list := by unfold detect; split_ifs <;> rfl
@[simp] theorem detect_th_sum_buff (s : State) (v : ℚ) (t : Int) :
    (detect s v t).th_sum_buff = s.th_sum_buff := by unfold detect; split_ifs <;> rfl
@[simp] theorem detect_time_from_peak (s : State) (v : ℚ) (t : Int) :
    (detect s v t).time_from_peak = s.time_from_peak := by unfold detect; split_ifs <;> rfl

@[simp] theorem recompute_period (s : State) (t : Int) :
    (recompute s t).period = s.period := by unfold recompute; split_ifs <;> rfl
@[simp] theorem recompute_th_spike (s : State) (t : Int) :
    (recompute s t).th_spike = s.th_spike := by unfold recompute; split_ifs <;> rfl
@[simp] theorem recompute_curr_slope (s : State) (t : Int) :
    (recompute s t).curr_slope = s.curr_slope := by unfold recompute; split_ifs <;> rfl
@[simp] theorem recompute_updatable (s : State) (t : Int) :
    (recompute s t).updatable = s.updatable := by unfold recompute; split_ifs <;> rfl
@[simp] theorem recompute_n_points (s : State) (t : Int) :
    (recompute s t).n_points = s.n_points := by unfold recompute; split_ifs <;> rfl
@[simp] theorem recompute_n_p_slope (s : State) (t : Int) :
    (recompute s t).n_p_slope = s.n_p_slope := by unfold recompute; split_ifs <;> rfl
@[simp] theorem recompute_sum (s : State) (t : Int) :
    (recompute s t).sum = s.sum := by unfold recompute; split_ifs <;> rfl
@[simp] theorem recompute_sum_reset_param (s : State) (t : Int) :
    (recompute s t).sum_reset_param = s.sum_reset_param := by unfold recompute; split_ifs <;> rfl
@[simp] theorem recompute_th_sum_param (s : State) (t : Int) :
    (recompute s t).th_sum_param = s.th_sum_param := by unfold recompute; split_ifs <;> rfl
@[simp] theorem recompute_sum_error (s : State) (t : Int) :
    (recompute s t).sum_error = s.sum_error := by unfold recompute; split_ifs <;> rfl
@[simp] theorem recompute_sum_min (s : State) (t : Int) :
    (recompute s t).sum_min = s.sum_min := by unfold recompute; split_ifs <;> rfl
@[simp] theorem recompute_sum_reset (s : State) (t : Int) :
    (recompute s t).sum_reset = s.sum_reset := by unfold recompute; split_ifs <;> rfl
@[simp] theorem recompute_slope_th_param (s : State) (t : Int) :
    (recompute s t).slope_th_param = s.slope_th_param := by unfold recompute; split_ifs <;> rfl
@[simp] theorem recompute_vector_size (s : State) (t : Int) :
    (recompute s t).vector_size = s.vector_size := by unfold recompute; split_ifs <;> rfl
@[simp] theorem recompute_cycle (s : State) (t : Int) :
    (recompute s t).cycle = s.cycle := by unfold recompute; split_ifs <;> rfl
@[simp] theorem recompute_v_list (s : State) (t : Int) :
    (recompute s t).v_list = s.v_list := by unfold recompute; split_ifs <;> rfl
@[simp] theorem recompute_sum_list (s : State) (t : Int) :
    (recompute s t).sum_list = s.sum_list := by unfold recompute; split_ifs <;> rfl
@[simp] theorem recompute_n_spikes (s : State) (t : Int) :
    (recompute s t).n_spikes = s.n_spikes := by unfold recompute; split_ifs <;> rfl
@[simp] theorem recompute_time_from_peak (s : State) (t : Int) :
    (recompute s t).time_from_peak = s.time_from_peak := by unfold recompute; split_ifs <;> rfl
@[simp] theorem recompute_t_after (s : State) (t : Int) :
    (recompute s t).t_after = s.t_after := by unfold recompute; split_ifs <;> rfl
@[simp] theorem recompute_got_spike (s : State) (t : Int) :
    (recompute s t).got_spike = s.got_spike := by unfold recompute; split_ifs <;> rfl

@[simp] theorem rearm_period (s : State) (v : ℚ) :
    (rearm s v).period = s.period := by unfold rearm; split_ifs <;> rfl
@[simp] theorem rearm_th_spike (s : State) (v : ℚ) :
    (rearm s v).th_spike = s.th_spike := by unfold rearm; split_ifs <;> rfl
@[simp] theorem rearm_th_calculated (s : State) (v : ℚ) :
    (rearm s v).th_calculated = s.th_calculated := by unfold rearm; split_ifs <;> rfl
@[simp] theorem rearm_sl_calculated (s : State) (v : ℚ) :
    (rearm s v).sl_calculated = s.sl_calculated := by unfold rearm; split_ifs <;> rfl
@[simp] theorem rearm_curr_slope (s : State) (v : ℚ) :
    (rearm s v).curr_slope = s.curr_slope := by unfold rearm; split_ifs <;> rfl
@[simp] theorem rearm_updatable (s : State) (v : ℚ) :
    (rearm s v).updatable = s.updatable := by unfold rearm; split_ifs <;> rfl
@[simp] theorem rearm_n_points (s : State) (v : ℚ) :
    (rearm s v).n_points = s.n_points := by unfold rearm; split_ifs <;> rfl
@[simp] theorem rearm_n_p_slope (s : State) (v : ℚ) :
    (rearm s v).n_p_slope = s.n_p_slope := by unfold rearm; split_ifs <;> rfl
@[simp] theorem rearm_sum (s : State) (v : ℚ) :
    (rearm s v).sum = s.sum := by unfold rearm; split_ifs <;> rfl
@[simp] theorem rearm_sum_reset_param (s : State) (v : ℚ) :
    (rearm s v).sum_reset_param = s.sum_reset_param := by unfold rearm; split_ifs <;> rfl
@[simp] theorem rearm_th_sum_param (s : State) (v : ℚ) :
    (rearm s v).th_sum_param = s.th_sum_param := by unfold rearm; split_ifs <;> rfl
@[simp] theorem rearm_sum_error (s : State) (v : ℚ) :
    (rearm s v).sum_error = s.sum_error := by unfold rearm; split_ifs <;> rfl
@[simp] theorem rearm_sum_min (s : State) (v : ℚ) :
    (rearm s v).sum_min = s.sum_min := by unfold rearm; split_ifs <;> rfl
@[simp] theorem rearm_th_sum_calculated (s : State) (v : ℚ) :
    (rearm s v).th_sum_calculated = s.th_sum_calculated := by unfold rearm; split_ifs <;> rfl
@[simp] theorem rearm_sum_reset (s : State) (v : ℚ) :
    (rearm s v).sum_reset = s.sum_reset := by unfold rearm; split_ifs <;> rfl
@[simp] theorem rearm_slope_th_param (s : State) (v : ℚ) :
    (rearm s v).slope_th_param = s.slope_th_param := by unfold rearm; split_ifs <;> rfl
@[simp] theorem rearm_vector_size (s : State) (v : ℚ) :
    (rearm s v).vector_size = s.vector_size := by unfold rearm; split_ifs <;> rfl
@[simp] theorem rearm_cycle (s : State) (v : ℚ) :
    (rearm s v).cycle = s.cycle := by unfold rearm; split_ifs <;> rfl
@[simp] theorem rearm_v_list (s : State) (v : ℚ) :
    (rearm s v).v_list = s.v_list := by unfold rearm; split_ifs <;> rfl
@[simp] theorem rearm_sum_list (s : State) (v : ℚ) :
    (rearm s v).sum_list = s.sum_list := by unfold rearm; split_ifs <;> rfl
@[simp] theorem rearm_th_sum_buff (s : State) (v : ℚ) :
    (rearm s v).th_sum_buff = s.th_sum_buff := by unfold rearm; split_ifs <;> rfl
@[simp] theorem rearm_n_spikes (s : State) (v : ℚ) :
    (rearm s v).n_spikes = s.n_spikes := by unfold rearm; split_ifs <;> rfl
@[simp] theorem rearm_time_from_peak (s : State) (v : ℚ) :
    (rearm s v).time_from_peak = s.time_from_peak := by unfold rearm; split_ifs <;> rfl
@[simp] theorem rearm_t_after (s : State) (v : ℚ) :
    (rearm s v).t_after = s.t_after := by unfold rearm; split_ifs <;> rfl
@[simp] theorem rearm_got_spike (s : State) (v : ℚ) :
    (rearm s v).got_spike = s.got_spike := by unfold rearm; split_ifs <;> rfl
@[simp] theorem rearm_update_in_this_cycle (s : State) (v : ℚ) :
    (rearm s v).update_in_this_cycle = s.update_in_this_cycle := by unfold rearm; split_ifs <;> rfl

@[simp] theorem latch_reset_period (s : State) :
    (latch_reset s).period = s.period := by unfold latch_reset; split_ifs <;> rfl
@[simp] theorem latch_reset_th_spike (s : State) :
    (latch_reset s).th_spike = s.th_spike := by unfold latch_reset; split_ifs <;> rfl
@[simp] theorem latch_reset_th_calculated (s : State) :
    (latch_reset s).th_calculated = s.th_calculated := by unfold latch_reset; split_ifs <;> rfl
@[simp] theorem latch_reset_sl_calculated (s : State) :
    (latch_reset s).sl_calculated = s.sl_calculated := by unfold latch_reset; split_ifs <;> rfl
@[simp] theorem latch_reset_curr_slope (s : State) :
    (latch_reset s).curr_slope = s.curr_slope := by unfold latch_reset; split_ifs <;> rfl
@[simp] theorem latch_reset_updatable (s : State) :
    (latch_reset s).updatable = s.updatable := by unfold latch_reset; split_ifs <;> rfl
@[simp] theorem latch_reset_switch_th (s : State) :
    (latch_reset s).switch_th = s.switch_th := by unfold latch_reset; split_ifs <;> rfl
@[simp] theorem latch_reset_n_points (s : State) :
    (latch_reset s).n_points = s.n_points := by unfold latch_reset; split_ifs <;> rfl
@[simp] theorem latch_reset_n_p_slope (s : State) :
    (latch_reset s).n_p_slope = s.n_p_slope := by unfold latch_reset; split_ifs <;> rfl
@[simp] theorem latch_reset_sum (s : State) :
    (latch_reset s).sum = s.sum := by unfold latch_reset; split_ifs <;> rfl
@[simp] theorem latch_reset_th_sum_param (s : State) :
    (latch_reset s).th_sum_param = s.th_sum_param := by unfold latch_reset; split_ifs <;> rfl
@[simp] theorem latch_reset_sum_error (s : State) :
    (latch_reset s).sum_error = s.sum_error := by unfold latch_reset; split_ifs <;> rfl
@[simp] theorem latch_reset_sum_min (s : State) :
    (latch_reset s).sum_min = s.sum_min := by unfold latch_reset; split_ifs <;> rfl
@[simp] theorem latch_reset_th_sum_calculated (s : State) :
    (latch_reset s).th_sum_calculated = s.th_sum_calculated := by unfold latch_reset; split_ifs <;> rfl
@[simp] theorem latch_reset_slope_th_param (s : State) :
    (latch_reset s).slope_th_param = s.slope_th_param := by unfold latch_reset; split_ifs <;> rfl
@[simp] theorem latch_reset_vector_size (s : State) :
    (latch_reset s).vector_size = s.vector_size := by unfold latch_reset; split_ifs <;> rfl
@[simp] theorem latch_reset_cycle (s : State) :
    (latch_reset s).cycle = s.cycle := by unfold latch_reset; split_ifs <;> rfl
@[simp] theorem latch_reset_v_list (s : State) :
    (latch_reset s).v_list = s.v_list := by unfold latch_reset; split_ifs <;> rfl
@[simp] theorem latch_reset_sum_list (s : State) :
    (latch_reset s).sum_list = s.sum_list := by unfold latch_reset; split_ifs <;> rfl
@[simp] theorem latch_reset_th_sum_buff (s : State) :
    (latch_reset s).th_sum_buff = s.th_sum_buff := by unfold latch_reset; split_ifs <;> rfl
@[simp] theorem latch_reset_n_spikes (s : State) :
    (latch_reset s).n_spikes = s.n_spikes := by unfold latch_reset; split_ifs <;> rfl
@[simp] theorem latch_reset_time_from_peak (s : State) :
    (latch_reset s).time_from_peak = s.time_from_peak := by unfold latch_reset; split_ifs <;> rfl
@[simp] theorem latch_reset_t_after (s : State) :
    (latch_reset s).t_after = s.t_after := by unfold latch_reset; split_ifs <;> rfl
@[simp] theorem latch_reset_got_spike (s : State) :
    (latch_reset s).got_spike = s.got_spike := by unfold latch_reset; split_ifs <;> rfl
@[simp] theorem latch_reset_update_in_this_cycle (s : State) :
    (latch_reset s).update_in_this_cycle = s.update_in_this_cycle := by unfold latch_reset; split_ifs <;> rfl

@[simp] theorem integrate_period (s : State) (v : ℚ) (a : Int) :
    (integrate s v a).period = s.period := by unfold integrate latch_reset; dsimp only; split_ifs <;> rfl
@[simp] theorem integrate_th_spike (s : State) (v : ℚ) (a : Int) :
    (integrate s v a).th_spike = s.th_spike := by unfold integrate latch_reset; dsimp only; split_ifs <;> rfl
@[simp] theorem integrate_th_calculated (s : State) (v : ℚ) (a : Int) :
    (integrate s v a).th_calculated = s.th_calculated := by unfold integrate latch_reset; dsimp only; split_ifs <;> rfl
@[simp] theorem integrate_sl_calculated (s : State) (v : ℚ) (a : Int) :
    (integrate s v a).sl_calculated = s.sl_calculated := by unfold integrate latch_reset; dsimp only; split_ifs <;> rfl
@[simp] theorem integrate_curr_slope (s : State) (v : ℚ) (a : Int) :
    (integrate s v a).curr_slope = s.curr_slope := by unfold integrate latch_reset; dsimp only; split_ifs <;> rfl
@[simp] theorem integrate_updatable (s : State) (v : ℚ) (a : Int) :
    (integrate s v a).updatable = s.updatable := by unfold integrate latch_reset; dsimp only; split_ifs <;> rfl
@[simp] theorem integrate_switch_th (s : State) (v : ℚ) (a : Int) :
    (integrate s v a).switch_th = s.switch_th := by unfold integrate latch_reset; dsimp only; split_ifs <;> rfl
@[simp] theorem integrate_n_points (s : State) (v : ℚ) (a : Int) :
    (integrate s v a).n_points = s.n_points := by unfold integrate latch_reset; dsimp only; split_ifs <;> rfl
@[simp] theorem integrate_n_p_slope (s : State) (v : ℚ) (a : Int) :
    (integrate s v a).n_p_slope = s.n_p_slope := by unfold integrate latch_reset; dsimp only; split_ifs <;> rfl
@[simp] theorem integrate_th_sum_param (s : State) (v : ℚ) (a : Int) :
    (integrate s v a).th_sum_param = s.th_sum_param := by unfold integrate latch_reset; dsimp only; split_ifs <;> rfl
@[simp] theorem integrate_sum_error (s : State) (v : ℚ) (a : Int) :
    (integrate s v a).sum_error = s.sum_error := by unfold integrate latch_reset; dsimp only; split_ifs <;> rfl
@[simp] theorem integrate_sum_min (s : State) (v : ℚ) (a : Int) :
    (integrate s v a).sum_min = s.sum_min := by unfold integrate latch_reset; dsimp only; split_ifs <;> rfl
@[simp] theorem integrate_th_sum_calculated (s : State) (v : ℚ) (a : Int) :
    (integrate s v a).th_sum_calculated = s.th_sum_calculated := by unfold integrate latch_reset; dsimp only; split_ifs <;> rfl
@[simp] theorem integrate_slope_th_param (s : State) (v : ℚ) (a : Int) :
    (integrate s v a).slope_th_param = s.slope_th_param := by unfold integrate latch_reset; dsimp only; split_ifs <;> rfl
@[simp] theorem integrate_vector_size (s : State) (v : ℚ) (a : Int) :
    (integrate s v a).vector_size = s.vector_size := by unfold integrate latch_reset; dsimp only; split_ifs <;> rfl
@[simp] theorem integrate_cycle (s : State) (v : ℚ) (a : Int) :
    (integrate s v a).cycle = s.cycle := by unfold integrate latch_reset; dsimp only; split_ifs <;> rfl
@[simp] theorem integrate_v_list (s : State) (v : ℚ) (a : Int) :
    (integrate s v a).v_list = s.v_list := by unfold integrate latch_reset; dsimp only; split_ifs <;> rfl
@[simp] theorem integrate_th_sum_buff (s : State) (v : ℚ) (a : Int) :
    (integrate s v a).th_sum_buff = s.th_sum_buff := by unfold integrate latch_reset; dsimp only; split_ifs <;> rfl
@[simp] theorem integrate_n_spikes (s : State) (v : ℚ) (a : Int) :
    (integrate s v a).n_spikes = s.n_spikes := by unfold integrate latch_reset; dsimp only; split_ifs <;> rfl
@[simp] theorem integrate_time_from_peak (s : State) (v : ℚ) (a : Int) :
    (integrate s v a).time_from_peak = s.time_from_peak := by unfold integrate latch_reset; dsimp only; split_ifs <;> rfl
@[simp] theorem integrate_t_after (s : State) (v : ℚ) (a : Int) :
    (integrate s v a).t_after = s.t_after := by unfold integrate latch_reset; dsimp only; split_ifs <;> rfl
@[simp] theorem integrate_got_spike (s : State) (v : ℚ) (a : Int) :
    (integrate s v a).got_spike = s.got_spike := by unfold integrate latch_reset; dsimp only; split_ifs <;> rfl
@[simp] theorem integrate_update_in_this_cycle (s : State) (v : ℚ) (a : Int) :
    (integrate s v a).update_in_this_cycle = s.update_in_this_cycle := by unfold integrate latch_reset; dsimp only; split_ifs <;> rfl

@[simp] theorem overrides_period (s : State) :
    (overrides s).period = s.period := rfl
@[simp] theorem overrides_th_spike (s : State) :
    (overrides s).th_spike = s.th_spike := rfl
@[simp] theorem overrides_th_calculated (s : State) :
    (overrides s).th_calculated = s.th_calculated := rfl
@[simp] theorem overrides_curr_slope (s : State) :
    (overrides s).curr_slope = s.curr_slope := rfl
@[simp] theorem overrides_updatable (s : State) :
    (overrides s).updatable = s.updatable := rfl
@[simp] theorem overrides_switch_th (s : State) :
    (overrides s).switch_th = s.switch_th := rfl
@[simp] theorem overrides_n_points (s : State) :
    (overrides s).n_points = s.n_points := rfl
@[simp] theorem overrides_n_p_slope (s : State) :
    (overrides s).n_p_slope = s.n_p_slope := rfl
@[simp] theorem overrides_sum (s : State) :
    (overrides s).sum = s.sum := rfl
@[simp] theorem overrides_sum_reset_param (s : State) :
    (overrides s).sum_reset_param = s.sum_reset_param := rfl
@[simp] theorem overrides_th_sum_param (s : State) :
    (overrides s).th_sum_param = s.th_sum_param := rfl
@[simp] theorem overrides_sum_error (s : State) :
    (overrides s).sum_error = s.sum_error := rfl
@[simp] theorem overrides_sum_min (s : State) :
    (overrides s).sum_min = s.sum_min := rfl
@[simp] theorem overrides_sum_reset (s : State) :
    (overrides s).sum_reset = s.sum_reset := rfl
@[simp] theorem overrides_slope_th_param (s : State) :
    (overrides s).slope_th_param = s.slope_th_param := rfl
@[simp] theorem overrides_vector_size (s : State) :
    (overrides s).vector_size = s.vector_size := rfl
@[simp] theorem overrides_cycle (s : State) :
    (overrides s).cycle = s.cycle := rfl
@[simp] theorem overrides_v_list (s : State) :
    (overrides s).v_list = s.v_list := rfl
@[simp] theorem overrides_sum_list (s : State) :
    (overrides s).sum_list = s.sum_list := rfl
@[simp] theorem overrides_th_sum_buff (s : State) :
    (overrides s).th_sum_buff = s.th_sum_buff := rfl
@[simp] theorem overrides_n_spikes (s : State) :
    (overrides s).n_spikes = s.n_spikes := rfl
@[simp] theorem overrides_time_from_peak (s : State) :
    (overrides s).time_from_peak = s.time_from_peak := rfl
@[simp] theorem overrides_t_after (s : State) :
    (overrides s).t_after = s.t_after := rfl
@[simp] theorem overrides_got_spike (s : State) :
    (overrides s).got_spike = s.got_spike := rfl
@[simp] theorem overrides_update_in_this_cycle (s : State) :
    (overrides s).update_in_this_cycle = s.update_in_this_cycle := rfl

@[simp] theorem update_states_period (s : State) (v : ℚ) :
    (update_states s v).period = s.period := by unfold update_states; dsimp only; split_ifs <;> rfl
@[simp] theorem update_states_th_spike (s : State) (v : ℚ) :
    (update_states s v).th_spike = s.th_spike := by unfold update_states; dsimp only; split_ifs <;> rfl
@[simp] theorem update_states_th_calculated (s : State) (v : ℚ) :
    (update_states s v).th_calculated = s.th_calculated := by unfold update_states; dsimp only; split_ifs <;> rfl
@[simp] theorem update_states_sl_calculated (s : State) (v : ℚ) :
    (update_states s v).sl_calculated = s.sl_calculated := by unfold update_states; dsimp only; split_ifs <;> rfl
@[simp] theorem update_states_curr_slope (s : State) (v : ℚ) :
    (update_states s v).curr_slope = s.curr_slope := by unfold update_states; dsimp only; split_ifs <;> rfl
@[simp] theorem update_states_updatable (s : State) (v : ℚ) :
    (update_states s v).updatable = s.updatable := by unfold update_states; dsimp only; split_ifs <;> rfl
@[simp] theorem update_states_switch_th (s : State) (v : ℚ) :
    (update_states s v).switch_th = s.switch_th := by unfold update_states; dsimp only; split_ifs <;> rfl
@[simp] theorem update_states_n_points (s : State) (v : ℚ) :
    (update_states s v).n_points = s.n_points := by unfold update_states; dsimp only; split_ifs <;> rfl
@[simp] theorem update_states_n_p_slope (s : State) (v : ℚ) :
    (update_states s v).n_p_slope = s.n_p_slope := by unfold update_states; dsimp only; split_ifs <;> rfl
@[simp] theorem update_states_sum (s : State) (v : ℚ) :
    (update_states s v).sum = s.sum := by unfold update_states; dsimp only; split_ifs <;> rfl
@[simp] theorem update_states_sum_reset_param (s : State) (v : ℚ) :
    (update_states s v).sum_reset_param = s.sum_reset_param := by unfold update_states; dsimp only; split_ifs <;> rfl
@[simp] theorem update_states_th_sum_param (s : State) (v : ℚ) :
    (update_states s v).th_sum_param = s.th_sum_param := by unfold update_states; dsimp only; split_ifs <;> rfl
@[simp] theorem update_states_sum_error (s : State) (v : ℚ) :
    (update_states s v).sum_error = s.sum_error := by unfold update_states; dsimp only; split_ifs <;> rfl
@[simp] theorem update_states_th_sum_calculated (s : State) (v : ℚ) :
    (update_states s v).th_sum_calculated = s.th_sum_calculated := by unfold update_states; dsimp only; split_ifs <;> rfl
@[simp] theorem update_states_sum_reset (s : State) (v : ℚ) :
    (update_states s v).sum_reset = s.sum_reset := by unfold update_states; dsimp only; split_ifs <;> rfl
@[simp] theorem update_states_slope_th_param (s : State) (v : ℚ) :
    (update_states s v).slope_th_param = s.slope_th_param := by unfold update_states; dsimp only; split_ifs <;> rfl
@[simp] theorem update_states_vector_size (s : State) (v : ℚ) :
    (update_states s v).vector_size = s.vector_size := by unfold update_states; dsimp only; split_ifs <;> rfl
@[simp] theorem update_states_cycle (s : State) (v : ℚ) :
    (update_states s v).cycle = s.cycle := by unfold update_states; dsimp only; split_ifs <;> rfl
@[simp] theorem update_states_v_list (s : State) (v : ℚ) :
    (update_states s v).v_list = s.v_list := by unfold update_states; dsimp only; split_ifs <;> rfl
@[simp] theorem update_states_sum_list (s : State) (v : ℚ) :
    (update_states s v).sum_list = s.sum_list := by unfold update_states; dsimp only; split_ifs <;> rfl
@[simp] theorem update_states_th_sum_buff (s : State) (v : ℚ) :
    (update_states s v).th_sum_buff = s.th_sum_buff := by unfold update_states; dsimp only; split_ifs <;> rfl
@[simp] theorem update_states_n_spikes (s : State) (v : ℚ) :
    (update_states s v).n_spikes = s.n_spikes := by unfold update_states; dsimp only; split_ifs <;> rfl
@[simp] theorem update_states_time_from_peak (s : State) (v : ℚ) :
    (update_states s v).time_from_peak = s.time_from_peak := by unfold update_states; dsimp only; split_ifs <;> rfl
@[simp] theorem update_states_t_after (s : State) (v : ℚ) :
    (update_states s v).t_after = s.t_after := by unfold update_states; dsimp only; split_ifs <;> rfl
@[simp] theorem update_states_got_spike (s : State) (v : ℚ) :
    (update_states s v).got_spike = s.got_spike := by unfold update_states; dsimp only; split_ifs <;> rfl
@[simp] theorem update_states_update_in_this_cycle (s : State) (v : ℚ) :
    (update_states s v).update_in_this_cycle = s.update_in_this_cycle := by unfold update_states; dsimp only; split_ifs <;> rfl

@[simp] theorem next_cycle_period (s : State) :
    (next_cycle s).period = s.period := by unfold next_cycle; split_ifs <;> rfl
@[simp] theorem next_cycle_th_spike (s : State) :
    (next_cycle s).th_spike = s.th_spike := by unfold next_cycle; split_ifs <;> rfl
@[simp] theorem next_cycle_th_calculated (s : State) :
    (next_cycle s).th_calculated = s.th_calculated := by unfold next_cycle; split_ifs <;> rfl
@[simp] theorem next_cycle_sl_calculated (s : State) :
    (next_cycle s).sl_calculated = s.sl_calculated := by unfold next_cycle; split_ifs <;> rfl
@[simp] theorem next_cycle_curr_slope (s : State) :
    (next_cycle s).curr_slope = s.curr_slope := by unfold next_cycle; split_ifs <;> rfl
@[simp] theorem next_cycle_updatable (s : State) :
    (next_cycle s).updatable = s.updatable := by unfold next_cycle; split_ifs <;> rfl
@[simp] theorem next_cycle_switch_th (s : State) :
    (next_cycle s).switch_th = s.switch_th := by unfold next_cycle; split_ifs <;> rfl
@[simp] theorem next_cycle_n_points (s : State) :
    (next_cycle s).n_points = s.n_points := by unfold next_cycle; split_ifs <;> rfl
@[simp] theorem next_cycle_n_p_slope (s : State) :
    (next_cycle s).n_p_slope = s.n_p_slope := by unfold next_cycle; split_ifs <;> rfl
@[simp] theorem next_cycle_sum (s : State) :
    (next_cycle s).sum = s.sum := by unfold next_cycle; split_ifs <;> rfl
@[simp] theorem next_cycle_sum_reset_param (s : State) :
    (next_cycle s).sum_reset_param = s.sum_reset_param := by unfold next_cycle; split_ifs <;> rfl
@[simp] theorem next_cycle_th_sum_param (s : State) :
    (next_cycle s).th_sum_param = s.th_sum_param := by unfold next_cycle; split_ifs <;> rfl
@[simp] theorem next_cycle_sum_error (s : State) :
    (next_cycle s).sum_error = s.sum_error := by unfold next_cycle; split_ifs <;> rfl
@[simp] theorem next_cycle_sum_min (s : State) :
    (next_cycle s).sum_min = s.sum_min := by unfold next_cycle; split_ifs <;> rfl
@[simp] theorem next_cycle_th_sum_calculated (s : State) :
    (next_cycle s).th_sum_calculated = s.th_sum_calculated := by unfold next_cycle; split_ifs <;> rfl
@[simp] theorem next_cycle_sum_reset (s : State) :
    (next_cycle s).sum_reset = s.sum_reset := by unfold next_cycle; split_ifs <;> rfl
@[simp] theorem next_cycle_slope_th_param (s : State) :
    (next_cycle s).slope_th_param = s.slope_th_param := by unfold next_cycle; split_ifs <;> rfl
@[simp] theorem next_cycle_vector_size (s : State) :
    (next_cycle s).vector_size = s.vector_size := by unfold next_cycle; split_ifs <;> rfl
@[simp] theorem next_cycle_v_list (s : State) :
    (next_cycle s).v_list = s.v_list := by unfold next_cycle; split_ifs <;> rfl
@[simp] theorem next_cycle_sum_list (s : State) :
    (next_cycle s).sum_list = s.sum_list := by unfold next_cycle; split_ifs <;> rfl
@[simp] theorem next_cycle_th_sum_buff (s : State) :
    (next_cycle s).th_sum_buff = s.th_sum_buff := by unfold next_cycle; split_ifs <;> rfl
@[simp] theorem next_cycle_n_spikes (s : State) :
    (next_cycle s).n_spikes = s.n_spikes := by unfold next_cycle; split_ifs <;> rfl
@[simp] theorem next_cycle_time_from_peak (s : State) :
    (next_cycle s).time_from_peak = s.time_from_peak := by unfold next_cycle; split_ifs <;> rfl
@[simp] theorem next_cycle_t_after (s : State) :
    (next_cycle s).t_after = s.t_after := by unfold next_cycle; split_ifs <;> rfl
@[simp] theorem next_cycle_got_spike (s : State) :
    (next_cycle s).got_spike = s.got_spike := by unfold next_cycle; split_ifs <;> rfl
@[simp] theorem next_cycle_update_in_this_cycle (s : State) :
    (next_cycle s).update_in_this_cycle = s.update_in_this_cycle := by unfold next_cycle; split_ifs <;> rfl

/-! ## What each stage does to the members it writes -/

theorem tmod_ring (N c : Int) (h0 : 0 ≤ c) (hN : c < N) : Int.tmod (N + c) N = c := by
  rw [Int.tmod_eq_emod (by omega) (by omega), Int.add_emod_self_left, Int.emod_eq_of_lt h0 hN]

theorem toInt_zero : toInt 0 = 0 := by decide

theorem save_data_v_list (s : State) (inp : Input) :
    (save_data s inp).v_list =
      s.v_list.set s.cycle (filter s.vector_size s.v_list s.cycle inp.v s.n_points) := rfl

theorem save_data_output_0 (s : State) (inp : Input) :
    (save_data s inp).output 0 = filter s.vector_size s.v_list s.cycle inp.v s.n_points := by
  simp [save_data, setOutput]

theorem detect_n_spikes (s : State) (v : ℚ) (t : Int) :
    (detect s v t).n_spikes = (if spike_test s v then s.n_spikes + 1 else s.n_spikes) := by
  unfold detect spike_test
  by_cases h1 : s.got_spike = false <;> by_cases h2 : v > s.th_spike <;>
    by_cases h3 : s.switch_th = true <;> by_cases h4 : v < s.v_list.data (s.cycle - 3) <;>
    by_cases h5 : s.time_from_peak ≤ 0 <;> by_cases h6 : s.t_after < t <;>
    by_cases h7 : s.t_after = t <;> simp [h1, h2, h3, h4, h5, h6, h7]

theorem detect_updatable (s : State) (v : ℚ) (t : Int) :
    (detect s v t).updatable =
      (if spike_test s v ∧ s.time_from_peak ≤ 0 then true else s.updatable) := by
  unfold detect spike_test
  by_cases h1 : s.got_spike = false <;> by_cases h2 : v > s.th_spike <;>
    by_cases h3 : s.switch_th = true <;> by_cases h4 : v < s.v_list.data (s.cycle - 3) <;>
    by_cases h5 : s.time_from_peak ≤ 0 <;> by_cases h6 : s.t_after < t <;>
    by_cases h7 : s.t_after = t <;> simp [h1, h2, h3, h4, h5, h6, h7]

theorem detect_got_spike (s : State) (v : ℚ) (t : Int) :
    (detect s v t).got_spike =
      (if s.got_spike = true ∧ ¬ s.t_after < t ∧ s.t_after = t then false else s.got_spike) := by
  unfold detect
  by_cases h1 : s.got_spike = false <;> by_cases h2 : v > s.th_spike <;>
    by_cases h3 : s.switch_th = true <;> by_cases h4 : v < s.v_list.data (s.cycle - 3) <;>
    by_cases h5 : s.time_from_peak ≤ 0 <;> by_cases h6 : s.t_after < t <;>
    by_cases h7 : s.t_after = t <;> simp [h1, h2, h3, h4, h5, h6, h7]

theorem detect_update_in_this_cycle (s : State) (v : ℚ) (t : Int) :
    (detect s v t).update_in_this_cycle =
      (if (spike_test s v ∧ s.time_from_peak ≤ 0) ∨
          (s.got_spike = true ∧ ¬ s.t_after < t ∧ s.t_after = t)
       then true else s.update_in_this_cycle) := by
  unfold detect spike_test
  by_cases h1 : s.got_spike = false <;> by_cases h2 : v > s.th_spike <;>
    by_cases h3 : s.switch_th = true <;> by_cases h4 : v < s.v_list.data (s.cycle - 3) <;>
    by_cases h5 : s.time_from_peak ≤ 0 <;> by_cases h6 : s.t_after < t <;>
    by_cases h7 : s.t_after = t <;> simp [h1, h2, h3, h4, h5, h6, h7]

theorem detect_t_after (s : State) (v : ℚ) (t : Int) :
    (detect s v t).t_after =
      (if s.got_spike = false then
        (if spike_test s v ∧ ¬ s.time_from_peak ≤ 0 then 0 else s.t_after)
       else if s.t_after < t then s.t_after + 1
       else if s.t_after = t then 0 else s.t_after) := by
  unfold detect spike_test
  by_cases h1 : s.got_spike = false <;> by_cases h2 : v > s.th_spike <;>
    by_cases h3 : s.switch_th = true <;> by_cases h4 : v < s.v_list.data (s.cycle - 3) <;>
    by_cases h5 : s.time_from_peak ≤ 0 <;> by_cases h6 : s.t_after < t <;>
    by_cases h7 : s.t_after = t <;> simp [h1, h2, h3, h4, h5, h6, h7]

theorem recompute_switch_th (s : State) (t : Int) :
    (recompute s t).switch_th = (if s.update_in_this_cycle = true then false else s.switch_th) := by
  unfold recompute; split_ifs <;> rfl

theorem recompute_th_calculated (s : State) (t : Int) :
    (recompute s t).th_calculated =
      (if s.update_in_this_cycle = true then
        s.v_list.data (Int.tmod (s.vector_size + s.cycle - t) s.vector_size)
       else s.th_calculated) := by
  unfold recompute; split_ifs <;> rfl

theorem recompute_sl_calculated (s : State) (t : Int) :
    (recompute s t).sl_calculated =
      (if s.update_in_this_cycle = true then
        calculate_slope (s.v_list.data (Int.tmod (s.vector_size + s.cycle - t) s.vector_size))
          (s.v_list.data (Int.tmod (s.vector_size + s.cycle - t - s.n_p_slope) s.vector_size))
          ((s.n_p_slope : ℚ) * s.period)
       else s.sl_calculated) := by
  unfold recompute; split_ifs <;> rfl

theorem recompute_update_in_this_cycle (s : State) (t : Int) :
    (recompute s t).update_in_this_cycle = false := by
  unfold recompute; split_ifs <;> simp_all

theorem recompute_output (s : State) (t : Int) (k : Nat) (h1 : k ≠ 1) (h2 : k ≠ 2) :
    (recompute s t).output k = s.output k := by
  unfold recompute; split_ifs <;> simp [setOutput, h1, h2]

theorem rearm_switch_th (s : State) (v : ℚ) :
    (rearm s v).switch_th = (if s.switch_th = false ∧ v < s.th_spike then true else s.switch_th) := by
  unfold rearm; split_ifs <;> rfl

@[simp] theorem detect_output (s : State) (v : ℚ) (t : Int) : (detect s v t).output = s.output := by
  unfold detect; split_ifs <;> rfl

@[simp] theorem rearm_output (s : State) (v : ℚ) : (rearm s v).output = s.output := by
  unfold rearm; split_ifs <;> rfl

@[simp] theorem latch_reset_output (s : State) : (latch_reset s).output = s.output := by
  unfold latch_reset; split_ifs <;> rfl

theorem latch_reset_sum_reset (s : State) :
    (latch_reset s).sum_reset = (if s.sum_reset ≠ 0 then s.sum_reset else s.sum_reset_param) := by
  unfold latch_reset; split_ifs <;> rfl

theorem integrate_sum (s : State) (v : ℚ) (a : Int) :
    (integrate s v a).sum = (if reset_fires (latch_reset s) v a then 0 else s.sum) + v := by
  simp [integrate]

theorem integrate_sum_list (s : State) (v : ℚ) (a : Int) :
    (integrate s v a).sum_list = s.sum_list.set s.cycle (integrate s v a).sum := by
  simp [integrate]

theorem integrate_output (s : State) (v : ℚ) (a : Int) :
    (integrate s v a).output = setOutput s.output 5 (integrate s v a).sum := by
  simp [integrate]

theorem overrides_th_sum_calculated (s : State) :
    (overrides s).th_sum_calculated =
      (if s.th_sum_param < 0 then s.th_sum_param else s.th_sum_calculated) := rfl

theorem overrides_sl_calculated (s : State) :
    (overrides s).sl_calculated =
      (if s.slope_th_param < -1000 then s.slope_th_param else s.sl_calculated) := rfl

theorem overrides_output (s : State) :
    (overrides s).output = setOutput s.output 3 (overrides s).th_sum_calculated := rfl

theorem update_states_output (s : State) (v : ℚ) :
    (update_states s v).output =
      (if s.updatable = true then
        setOutput
          (setOutput
            (setOutput s.output 6 (boolToDouble (s.sum < s.th_sum_calculated)))
            7 (boolToDouble (v > s.th_calculated)))
          8 (boolToDouble (s.curr_slope > s.sl_calculated))
       else setOutput (setOutput (setOutput s.output 6 0) 7 0) 8 0) := by
  unfold update_states; dsimp only; split_ifs <;> rfl

theorem update_states_output_below (s : State) (v : ℚ) (k : Nat) (hk : k < 6) :
    (update_states s v).output k = s.output k := by
  have h6 : k ≠ 6 := by omega
  have h7 : k ≠ 7 := by omega
  have h8 : k ≠ 8 := by omega
  rw [update_states_output]
  split_ifs <;> simp [setOutput, h6, h7, h8]

@[simp] theorem next_cycle_output (s : State) : (next_cycle s).output = s.output := by
  unfold next_cycle; split_ifs <;> rfl

theorem next_cycle_cycle (s : State) :
    (next_cycle s).cycle = (if s.vector_size = s.cycle + 1 then 0 else s.cycle + 1) := by
  unfold next_cycle; split_ifs <;> rfl

@[simp] theorem detect_allow_reset_one (s : State) (v : ℚ) : detect_allow_reset s v 1 = 1 := by
  unfold detect_allow_reset; split_ifs <;> rfl

/-! ## The step as a whole -/

theorem execute_vector_size (s : State) (inp : Input) :
    (execute s inp).vector_size = s.vector_size := by
  simp [execute, after_integrate, after_recompute]

theorem execute_cycle (s : State) (inp : Input) :
    (execute s inp).cycle = (if s.vector_size = s.cycle + 1 then 0 else s.cycle + 1) := by
  simp [execute, after_integrate, after_recompute, next_cycle_cycle]

theorem execute_v_list (s : State) (inp : Input) :
    (execute s inp).v_list =
      s.v_list.set s.cycle (filter s.vector_size s.v_list s.cycle inp.v s.n_points) := by
  simp [execute, after_integrate, after_recompute, save_data_v_list]

theorem execute_output_0 (s : State) (inp : Input) :
    (execute s inp).output 0 = filter s.vector_size s.v_list s.cycle inp.v s.n_points := by
  simp [execute, after_integrate, after_recompute, update_states_output_below, overrides_output,
    integrate_output, setOutput, recompute_output, save_data_output_0]

theorem execute_cycle_in_range (s : State) (inp : Input) (h : cycle_in_range s) :
    cycle_in_range (execute s inp) := by
  unfold cycle_in_range at *
  rw [execute_cycle, execute_vector_size]
  split_ifs <;> omega

theorem run_cycle_in_range (ins : List Input) :
    ∀ s : State, cycle_in_range s → cycle_in_range (run s ins) := by
  induction ins with
  | nil => intro s h; exact h
  | cons inp rest ih => intro s h; exact ih _ (execute_cycle_in_range s inp h)

theorem construct_cycle (h : Host) (mem : State) : (construct h mem).cycle = 0 := rfl

theorem construct_vector_size (h : Host) (mem : State) : (construct h mem).vector_size = 40000 := by
  simp [construct, update, initParameters]

/-! ## Claims -/

/-- C1: from a state with `0 ≤ cycle < vector_size`, one call of `execute` leaves `cycle` in
`[0, vector_size)` and the new `cycle` is `(cycle + 1) mod vector_size`; the bound then holds after
any number of calls, in particular from the constructed state, whose `cycle` is `0`. -/
theorem cycle_advances (s : State) (inp : Input) (h0 : 0 ≤ s.cycle) (hN : s.cycle < s.vector_size) :
    (0 ≤ (execute s inp).cycle ∧ (execute s inp).cycle < (execute s inp).vector_size) ∧
    (execute s inp).cycle = (s.cycle + 1) % s.vector_size ∧
    (∀ ins : List Input, 0 ≤ (run s ins).cycle ∧ (run s ins).cycle < (run s ins).vector_size) ∧
    (∀ (h : Host) (mem : State) (ins : List Input),
      (construct h mem).cycle = 0 ∧
      0 ≤ (run (construct h mem) ins).cycle ∧
      (run (construct h mem) ins).cycle < (run (construct h mem) ins).vector_size) := by
  refine ⟨execute_cycle_in_range s inp ⟨h0, hN⟩, ?_, ?_, ?_⟩
  · rw [execute_cycle]
    split_ifs with hc
    · rw [← hc]; simp
    · rw [Int.emod_eq_of_lt (by omega) (by omega)]
  · intro ins
    exact run_cycle_in_range ins s ⟨h0, hN⟩
  · intro h mem ins
    refine ⟨rfl, ?_⟩
    exact run_cycle_in_range ins _ ⟨by rw [construct_cycle], by
      rw [construct_cycle, construct_vector_size]; norm_num⟩

/-- Witness of C1 at the constructed state and the sample `1`. -/
theorem cycle_advances_witness :
    (0 ≤ (construct host0 zeroMem).cycle ∧
      (construct host0 zeroMem).cycle < (construct host0 zeroMem).vector_size) ∧
    (execute (construct host0 zeroMem) ⟨1, 0⟩).cycle = 1 := by
  have h0 : 0 ≤ (construct host0 zeroMem).cycle := by rw [construct_cycle]
  have hN : (construct host0 zeroMem).cycle < (construct host0 zeroMem).vector_size := by
    rw [construct_cycle, construct_vector_size]; norm_num
  refine ⟨⟨h0, hN⟩, ?_⟩
  have h := (cycle_advances (construct host0 zeroMem) ⟨1, 0⟩ h0 hN).2.1
  rw [h, construct_cycle, construct_vector_size]
  norm_num

/-- C2: hysteresis. From a state with `switch_th = false`, a sample that is not below `th_spike`
leaves `switch_th = false`; so a step can take `switch_th` from false to true only when its sample
is strictly below `th_spike`. -/
theorem hysteresis (s : State) (inp : Input) (hsw : s.switch_th = false) :
    (s.th_spike ≤ inp.v → (execute s inp).switch_th = false) ∧
    ((execute s inp).switch_th = true → inp.v < s.th_spike) := by
  have key : (execute s inp).switch_th = (if inp.v < s.th_spike then true else false) := by
    simp [execute, after_integrate, after_recompute, rearm_switch_th, recompute_switch_th, hsw]
  rw [key]
  constructor
  · intro hv
    rw [if_neg (not_lt.mpr hv)]
  · intro h
    by_contra hc
    rw [if_neg hc] at h
    exact Bool.noConfusion h

/-- Witness of C2 at the constructed state (`switch_th = false`, `th_spike = 0`) and the sample `1`. -/
theorem hysteresis_witness :
    (construct host0 zeroMem).switch_th = false ∧
    (construct host0 zeroMem).th_spike ≤ (1 : ℚ) ∧
    (execute (construct host0 zeroMem) ⟨1, 0⟩).switch_th = false :=
  ⟨rfl, by simp [construct, update, initParameters],
    (hysteresis (construct host0 zeroMem) ⟨1, 0⟩ rfl).1 (by simp [construct, update, initParameters])⟩


/-- C3 (the code departs from the claim): on the first step after construction no spike has been
counted before or after the step, yet the sample `1` makes `output(7)` (voltage crossed) equal
to `1`, because `initParameters` leaves `updatable = true`. -/
theorem crossing_outputs_live_before_first_spike :
    (construct host0 zeroMem).updatable = true ∧
    (construct host0 zeroMem).n_spikes = 0 ∧
    (execute (construct host0 zeroMem) ⟨1, 0⟩).n_spikes = 0 ∧
    (execute (construct host0 zeroMem) ⟨1, 0⟩).output 7 = 1 := by
  decide!

theorem time_from_peak_points_zero (s : State) (htfp : s.time_from_peak = 0) :
    time_from_peak_points s = 0 := by
  unfold time_from_peak_points
  rw [htfp, zero_div]
  exact toInt_zero

theorem spike_test_save_data (s : State) (inp : Input) :
    spike_test (save_data s inp) inp.v ↔
      s.got_spike = false ∧ (inp.v > s.th_spike ∧ s.switch_th = true) ∧
        inp.v < s.v_list.data (s.cycle - 3) := by
  have hne : s.cycle - 3 ≠ s.cycle := by omega
  simp [spike_test, save_data_v_list, DVec.set, hne]

/-- C4: immediate recomputation. In a state with `got_spike = false`, `switch_th = true`,
`3 ≤ cycle < vector_size` and `time_from_peak = 0`, a sample above
`th_spike` and below `v_list[cycle - 3]` makes the step count exactly one spike, set `updatable`,
leave `switch_th = false`, and set `th_calculated` to the filtered value of this step, which is
the value stored in `v_list[cycle]` and emitted on `output(0)`. -/
theorem immediate_recomputation (s : State) (inp : Input)
    (hg : s.got_spike = false) (hsw : s.switch_th = true)
    (hc3 : 3 ≤ s.cycle) (hcN : s.cycle < s.vector_size)
    (htfp : s.time_from_peak = 0)
    (hv : inp.v > s.th_spike) (hlt : inp.v < s.v_list.data (s.cycle - 3)) :
    (execute s inp).n_spikes = s.n_spikes + 1 ∧
    (execute s inp).updatable = true ∧
    (execute s inp).switch_th = false ∧
    (execute s inp).th_calculated = filter s.vector_size s.v_list s.cycle inp.v s.n_points ∧
    (execute s inp).v_list.data s.cycle = filter s.vector_size s.v_list s.cycle inp.v s.n_points ∧
    (execute s inp).output 0 = filter s.vector_size s.v_list s.cycle inp.v s.n_points := by
  have hst : spike_test (save_data s inp) inp.v := (spike_test_save_data s inp).2 ⟨hg, ⟨hv, hsw⟩, hlt⟩
  have ht : time_from_peak_points s = 0 := time_from_peak_points_zero s htfp
  have hidx : Int.tmod (s.vector_size + s.cycle) s.vector_size = s.cycle :=
    tmod_ring _ _ (by omega) hcN
  have hnlt : s.th_spike ≤ inp.v := le_of_lt hv
  refine ⟨?_, ?_, ?_, ?_, ?_, ?_⟩
  · simp [execute, after_integrate, after_recompute, detect_n_spikes, hst]
  · simp [execute, after_integrate, after_recompute, detect_updatable, hst, htfp]
  · simp [execute, after_integrate, after_recompute, rearm_switch_th, recompute_switch_th,
      detect_update_in_this_cycle, hst, htfp, hnlt]
  · simp [execute, after_integrate, after_recompute, recompute_th_calculated,
      detect_update_in_this_cycle, hst, htfp, ht, hidx, save_data_v_list, DVec.set]
  · simp [execute_v_list, DVec.set]
  · exact execute_output_0 s inp


/-- Witness of C4: the state reached from construction by the samples `1, 1, -1`, then the sample `1/2`. -/
theorem immediate_recomputation_witness :
    (armed3.got_spike = false ∧ armed3.switch_th = true ∧ 3 ≤ armed3.cycle ∧
      armed3.cycle < armed3.vector_size ∧ armed3.time_from_peak = 0 ∧
      (1 / 2 : ℚ) > armed3.th_spike ∧ (1 / 2 : ℚ) < armed3.v_list.data (armed3.cycle - 3)) ∧
    (execute armed3 ⟨1 / 2, 0⟩).n_spikes = armed3.n_spikes + 1 ∧
    (execute armed3 ⟨1 / 2, 0⟩).th_calculated = 1 / 2 := by
  have h := immediate_recomputation armed3 ⟨1 / 2, 0⟩ (by decide!) (by decide!) (by decide!)
    (by decide!) (by decide!) (by decide!) (by decide!)
  refine ⟨by decide!, h.1, ?_⟩
  rw [h.2.2.2.1]
  decide!

theorem execute_output_7 (s : State) (inp : Input) :
    (execute s inp).output 7 =
      (if (execute s inp).updatable = true then
        boolToDouble (inp.v > (execute s inp).th_calculated) else 0) := by
  simp only [execute, next_cycle_output, next_cycle_updatable, next_cycle_th_calculated,
    update_states_output, update_states_updatable, update_states_th_calculated,
    overrides_updatable, overrides_th_calculated]
  split_ifs <;> simp [setOutput]

/-- C5 (refuted as stated): in the scenario `th_spike = -0.02`, `time_from_peak = 0`,
`n_points = 0`, `n_p_slope = 5`, fed the ramp `-0.05, …, -0.005` (rising through the threshold)
then `-0.012, -0.018` (falling back), the recomputation fires on the last sample (the spike count
goes from 0 to 1 and `th_calculated` becomes that sample), and `output(7)` is `0` on that step,
not `1`; it was `0` on the step before as well. -/
theorem ramp_voltage_crossed_counterexample :
    (run scenario5 ramp).n_spikes = 0 ∧
    (run scenario5 (ramp ++ [⟨-0.018, 0⟩])).n_spikes = 1 ∧
    (run scenario5 (ramp ++ [⟨-0.018, 0⟩])).th_calculated = -0.018 ∧
    (run scenario5 ramp).output 7 = 0 ∧
    ¬ (run scenario5 (ramp ++ [⟨-0.018, 0⟩])).output 7 = 1 := by
  decide!

/-- C5 (amended): with `n_points = 0` and `time_from_peak = 0`, on a step where the immediate
recomputation fires (armed, `3 ≤ cycle < vector_size`, sample above `th_spike` and below
`v_list[cycle - 3]`) `th_calculated` becomes the filtered value of that step, which is the sample
itself, and `output(7)`, the strict comparison `v > th_calculated`, is `0` on that step. -/
theorem ramp_voltage_crossed_amended (s : State) (inp : Input)
    (hnp : s.n_points = 0) (htfp : s.time_from_peak = 0)
    (hg : s.got_spike = false) (hsw : s.switch_th = true)
    (hc3 : 3 ≤ s.cycle) (hcN : s.cycle < s.vector_size)
    (hv : inp.v > s.th_spike) (hlt : inp.v < s.v_list.data (s.cycle - 3)) :
    (execute s inp).th_calculated = inp.v ∧
    (execute s inp).output 0 = inp.v ∧
    (execute s inp).output 7 = 0 := by
  have hf : filter s.vector_size s.v_list s.cycle inp.v s.n_points = inp.v := by
    simp [filter, hnp]
  have hth : (execute s inp).th_calculated = inp.v := by
    simp [execute, after_integrate, after_recompute, recompute_th_calculated,
      detect_update_in_this_cycle, (spike_test_save_data s inp).2 ⟨hg, ⟨hv, hsw⟩, hlt⟩, htfp,
      time_from_peak_points_zero s htfp, tmod_ring _ _ (by omega : (0 : Int) ≤ s.cycle) hcN,
      save_data_v_list, DVec.set, hf]
  refine ⟨hth, ?_, ?_⟩
  · rw [execute_output_0, hf]
  · rw [execute_output_7, hth]
    split_ifs <;> simp [boolToDouble]

/-- Witness of the amended C5: the scenario state after the seven ramp samples, then `-0.018`. -/
theorem ramp_voltage_crossed_amended_witness :
    ((run scenario5 ramp).n_points = 0 ∧ (run scenario5 ramp).time_from_peak = 0 ∧
      (run scenario5 ramp).got_spike = false ∧ (run scenario5 ramp).switch_th = true ∧
      3 ≤ (run scenario5 ramp).cycle ∧ (run scenario5 ramp).cycle < (run scenario5 ramp).vector_size ∧
      (-0.018 : ℚ) > (run scenario5 ramp).th_spike ∧
      (-0.018 : ℚ) < (run scenario5 ramp).v_list.data ((run scenario5 ramp).cycle - 3)) ∧
    (execute (run scenario5 ramp) ⟨-0.018, 0⟩).th_calculated = -0.018 ∧
    (execute (run scenario5 ramp) ⟨-0.018, 0⟩).output 0 = -0.018 ∧
    (execute (run scenario5 ramp) ⟨-0.018, 0⟩).output 7 = 0 :=
  ⟨by decide!,
    ramp_voltage_crossed_amended (run scenario5 ramp) ⟨-0.018, 0⟩ (by decide!) (by decide!)
      (by decide!) (by decide!) (by decide!) (by decide!) (by decide!) (by decide!)⟩

/-- C6 (the code departs from the claim): with `time_from_peak = 1 > 0`, in the armed state after
the ramp, the sample `-0.018` passes the spike test; the step counts the spike and has
`t_after = 0`, but `got_spike` is still false afterwards: no assignment `got_spike = true` exists. -/
theorem delayed_path_got_spike_not_set :
    ((run scenario6 ramp).got_spike = false ∧ (run scenario6 ramp).switch_th = true ∧
      (run scenario6 ramp).time_from_peak > 0 ∧ (-0.018 : ℚ) > (run scenario6 ramp).th_spike ∧
      (-0.018 : ℚ) < (run scenario6 ramp).v_list.data ((run scenario6 ramp).cycle - 3)) ∧
    (run scenario6 ramp).n_spikes = 0 ∧
    (execute (run scenario6 ramp) ⟨-0.018, 0⟩).n_spikes = 1 ∧
    (execute (run scenario6 ramp) ⟨-0.018, 0⟩).t_after = 0 ∧
    (execute (run scenario6 ramp) ⟨-0.018, 0⟩).got_spike = false := by
  decide!

/-- C7 (the code departs from the claim): with `slope_th_param = 1 > -1000`, `sl_calculated` is
not `1` after a step: it keeps its value `0` on a step without recomputation and holds the
freshly computed slope `0.024` after the step on which the recomputation fires. -/
theorem slope_override_not_applied :
    scenario7.slope_th_param = 1 ∧
    (execute scenario7 ⟨-0.05, 0⟩).sl_calculated = 0 ∧
    (run scenario7 ramp).n_spikes = 0 ∧
    (run scenario7 (ramp ++ [⟨-0.018, 0⟩])).n_spikes = 1 ∧
    (run scenario7 (ramp ++ [⟨-0.018, 0⟩])).sl_calculated = 0.024 := by
  decide!

theorem execute_th_sum_calculated (s : State) (inp : Input) :
    (execute s inp).th_sum_calculated =
      (if s.th_sum_param < 0 then s.th_sum_param
       else (after_recompute s inp).th_sum_calculated) := by
  simp [execute, after_integrate, after_recompute, overrides_th_sum_calculated]

theorem execute_output_3 (s : State) (inp : Input) :
    (execute s inp).output 3 = (execute s inp).th_sum_calculated := by
  simp [execute, update_states_output_below, overrides_output, setOutput]

/-- C8 (refuted as stated): after construction `th_sum_param = 5 ≥ 0`, and after one step
`th_sum_calculated` and `output(3)` are `-0.05`, not `5`; with `th_sum_param = -2 < 0` they
are `-2` after one step, so a negative parameter is what gets forced. -/
theorem sum_override_counterexample :
    (construct host0 zeroMem).th_sum_param = 5 ∧
    ¬ (execute (construct host0 zeroMem) ⟨1, 0⟩).th_sum_calculated = 5 ∧
    (execute (construct host0 zeroMem) ⟨1, 0⟩).output 3 = -0.05 ∧
    scenario8.th_sum_param = -2 ∧
    (execute scenario8 ⟨1, 0⟩).th_sum_calculated = -2 := by
  decide!

/-- C8 (amended): if `th_sum_param < 0` then after the step `th_sum_calculated` and `output(3)`
equal `th_sum_param`; if `th_sum_param ≥ 0` the value left by the recomputation stage (fresh
or carried over) is kept and emitted on `output(3)`. -/
theorem sum_override_amended (s : State) (inp : Input) :
    (s.th_sum_param < 0 →
      (execute s inp).th_sum_calculated = s.th_sum_param ∧
      (execute s inp).output 3 = s.th_sum_param) ∧
    (0 ≤ s.th_sum_param →
      (execute s inp).th_sum_calculated = (after_recompute s inp).th_sum_calculated ∧
      (execute s inp).output 3 = (after_recompute s inp).th_sum_calculated) := by
  constructor
  · intro h
    rw [execute_output_3, execute_th_sum_calculated, if_pos h]
    exact ⟨rfl, rfl⟩
  · intro h
    rw [execute_output_3, execute_th_sum_calculated, if_neg (not_lt.mpr h)]
    exact ⟨rfl, rfl⟩

/-- Witness of the amended C8: parameter `-2` is forced, parameter `5` leaves the value `-0.05`. -/
theorem sum_override_amended_witness :
    (scenario8.th_sum_param < 0 ∧ (execute scenario8 ⟨1, 0⟩).output 3 = scenario8.th_sum_param) ∧
    ((0 : ℚ) ≤ (construct host0 zeroMem).th_sum_param ∧
      (execute (construct host0 zeroMem) ⟨1, 0⟩).th_sum_calculated =
        (after_recompute (construct host0 zeroMem) ⟨1, 0⟩).th_sum_calculated) :=
  ⟨⟨by decide!, ((sum_override_amended scenario8 ⟨1, 0⟩).1 (by decide!)).2⟩,
    ⟨by decide!, ((sum_override_amended (construct host0 zeroMem) ⟨1, 0⟩).2 (by decide!)).1⟩⟩

/-- C9 (the code departs from the claim): after construction (`sum_reset_param = -0.05`,
`sum_error = 0.003`, no reset input) the sample `1` gives `sum = 1`; the next sample `-1` has
`|v - ref| = 0.95 ≥ 0.003`, yet the step resets: `sum` is `-1`, not `1 + (-1) = 0`. The
condition of line 230 is `v - ref < sum_error`, without absolute value. -/
theorem sum_reset_without_abs :
    (execute (construct host0 zeroMem) ⟨1, 0⟩).sum = 1 ∧
    reset_reference (execute (construct host0 zeroMem) ⟨1, 0⟩) ⟨-1, 0⟩ = -0.05 ∧
    ¬ |(-1 : ℚ) - reset_reference (execute (construct host0 zeroMem) ⟨1, 0⟩) ⟨-1, 0⟩|
        < (execute (construct host0 zeroMem) ⟨1, 0⟩).sum_error ∧
    reset_in_step (execute (construct host0 zeroMem) ⟨1, 0⟩) ⟨-1, 0⟩ ∧
    (run (construct host0 zeroMem) [⟨1, 0⟩, ⟨-1, 0⟩]).sum = -1 := by
  decide!

theorem execute_sum (s : State) (inp : Input) :
    (execute s inp).sum = (if reset_in_step s inp then 0 else s.sum) + inp.v := by
  simp [execute, after_integrate, integrate_sum, reset_in_step, after_recompute]

theorem execute_sum_list (s : State) (inp : Input) :
    (execute s inp).sum_list = s.sum_list.set s.cycle (execute s inp).sum := by
  simp [execute, after_integrate, integrate_sum_list, after_recompute]

theorem run_append (a b : List Input) : ∀ s : State, run s (a ++ b) = run (run s a) b := by
  induction a with
  | nil => intro s; rfl
  | cons x rest ih => intro s; exact ih (execute s x)

theorem no_resets_append (a b : List Input) :
    ∀ s : State, no_resets s (a ++ b) → no_resets s a ∧ no_resets (run s a) b := by
  induction a with
  | nil => intro s h; exact ⟨trivial, h⟩
  | cons x rest ih =>
    intro s h
    obtain ⟨h1, h2⟩ := ih (execute s x) h.2
    exact ⟨⟨h.1, h1⟩, h2⟩

theorem run_sum_of_no_resets (ins : List Input) :
    ∀ s : State, no_resets s ins → (run s ins).sum = s.sum + total ins := by
  induction ins with
  | nil => intro s _; simp [run, total]
  | cons x rest ih =>
    intro s h
    have hx : (execute s x).sum = s.sum + x.v := by rw [execute_sum, if_neg h.1]
    have := ih (execute s x) h.2
    simp only [run, total, List.map_cons, List.sum_cons] at this ⊢
    rw [this, hx]
    ring

/-- C10: running total. If no reset fires on any step of a run of `k` inputs from a state with
`sum = s0`, then `sum` after the run is `s0` plus the sum of the `k` samples, and at every step of
the run the value written to `sum_list` at that step's `cycle` is the running total up to and
including that step. -/
theorem running_total (s : State) (ins : List Input) (h : no_resets s ins) :
    (run s ins).sum = s.sum + total ins ∧
    ∀ (pre : List Input) (inp : Input) (post : List Input), ins = pre ++ inp :: post →
      (run s (pre ++ [inp])).sum_list.data (run s pre).cycle = s.sum + total (pre ++ [inp]) := by
  refine ⟨run_sum_of_no_resets ins s h, ?_⟩
  intro pre inp post hins
  have hsplit : pre ++ inp :: post = (pre ++ [inp]) ++ post := by simp
  rw [hins, hsplit] at h
  have hpre := (no_resets_append (pre ++ [inp]) post s h).1
  have hsum := run_sum_of_no_resets (pre ++ [inp]) s hpre
  have hrun : run s (pre ++ [inp]) = execute (run s pre) inp := by
    rw [run_append]; rfl
  rw [← hsum, hrun, execute_sum_list]
  simp [DVec.set]

/-- Witness of C10: the samples `1, 2, 3` after construction cause no reset. -/
theorem running_total_witness :
    no_resets (construct host0 zeroMem) [⟨1, 0⟩, ⟨2, 0⟩, ⟨3, 0⟩] ∧
    (run (construct host0 zeroMem) [⟨1, 0⟩, ⟨2, 0⟩, ⟨3, 0⟩]).sum = 6 := by
  have hnr : no_resets (construct host0 zeroMem) [⟨1, 0⟩, ⟨2, 0⟩, ⟨3, 0⟩] := by decide!
  refine ⟨hnr, ?_⟩
  rw [(running_total (construct host0 zeroMem) [⟨1, 0⟩, ⟨2, 0⟩, ⟨3, 0⟩] hnr).1]
  decide!

/-! ## The pure helpers `filter` and `calculate_slope` -/

theorem foldl_range_add (g : Nat → ℚ) (init : ℚ) (w : Nat) :
    (List.range w).foldl (fun fv k => fv + g k) init = init + Finset.sum (Finset.range w) g := by
  induction w with
  | zero => simp
  | succ n ih =>
    rw [List.range_succ, List.foldl_append, ih, Finset.sum_range_succ]
    simp [add_assoc]

theorem filter_eq_sum (N : Int) (buf : DVec) (cycle : Int) (v : ℚ) (n : Int) (hn : n ≠ 0) :
    filter N buf cycle v n =
      v * 0.3 + Finset.sum (Finset.range n.toNat)
        (fun k => buf.data (Int.tmod (N + cycle - ((k : Int) + 1)) N) * (0.7 / (n : ℚ))) := by
  unfold filter
  rw [if_neg hn]
  exact foldl_range_add _ _ _

theorem filter_index_tmod (N cycle : Int) (w k : Nat) (h0 : 0 ≤ cycle) (hN : cycle < N)
    (hw : (w : Int) ≤ N) (hk : k < w) :
    Int.tmod (N + cycle - ((k : Int) + 1)) N = (N + cycle - ((k : Int) + 1)) % N ∧
    0 ≤ Int.tmod (N + cycle - ((k : Int) + 1)) N ∧ Int.tmod (N + cycle - ((k : Int) + 1)) N < N := by
  have hk2 : (k : Int) < (w : Int) := by exact_mod_cast hk
  have hpos : 0 < N := by omega
  have he : Int.tmod (N + cycle - ((k : Int) + 1)) N = (N + cycle - ((k : Int) + 1)) % N :=
    Int.tmod_eq_emod (by omega) (by omega)
  rw [he]
  exact ⟨rfl, Int.emod_nonneg _ (by omega), Int.emod_lt_of_pos _ hpos⟩

/-- C11: `filter` meets its reference definition. For a buffer of length `N` and
`0 ≤ cycle < N`, `filter(buf, cycle, v, 0) = v`, and for every window `1 ≤ w ≤ N` the result is
`0.3*v` plus the sum over `i = 1..w` of `(0.7/w) * buf[(N + cycle - i) mod N]`, every index read
being a valid index of the buffer. The function returns a value only; it has no buffer to modify. -/
theorem filter_meets_reference (buf : DVec) (N cycle : Int) (v : ℚ)
    (hlen : (buf.size : Int) = N) (h0 : 0 ≤ cycle) (hN : cycle < N) :
    filter N buf cycle v 0 = v ∧
    ∀ w : Nat, 1 ≤ w → (w : Int) ≤ N →
      filter N buf cycle v w = filter_reference N buf cycle v w ∧
      ∀ i ∈ filter_indices N cycle w, buf.inRange i := by
  refine ⟨by simp [filter], ?_⟩
  intro w hw1 hwN
  have hw0 : (w : Int) ≠ 0 := by omega
  have hwn : w ≠ 0 := by omega
  constructor
  · rw [filter_eq_sum N buf cycle v w hw0]
    unfold filter_reference
    rw [if_neg hwn, ← Nat.Ico_succ_right, Finset.sum_Ico_eq_sum_range]
    simp only [Nat.succ_eq_add_one, Nat.add_sub_cancel, Int.toNat_ofNat]
    rw [mul_comm v 0.3]
    congr 1
    apply Finset.sum_congr rfl
    intro k hk
    have hk2 : k < w := Finset.mem_range.mp hk
    rw [(filter_index_tmod N cycle w k h0 hN hwN hk2).1]
    push_cast
    rw [mul_comm]
    congr 3
    ring
  · intro i hi
    unfold filter_indices at hi
    rw [if_neg hw0] at hi
    simp only [Int.toNat_ofNat, List.mem_map, List.mem_range] at hi
    obtain ⟨k, hk, rfl⟩ := hi
    have h := filter_index_tmod N cycle w k h0 hN hwN hk
    unfold DVec.inRange
    rw [hlen]
    exact ⟨h.2.1, h.2.2⟩

/-- Witness of C11: a buffer of length 4 holding `1, 2, 3, 4`, `cycle = 1`, window 2. -/
theorem filter_meets_reference_witness :
    ((4 : Nat) : Int) = 4 ∧ (0 : Int) ≤ 1 ∧ (1 : Int) < 4 ∧
    filter 4 ⟨4, fun i => (i : ℚ) + 1⟩ 1 10 (2 : Nat) =
      filter_reference 4 ⟨4, fun i => (i : ℚ) + 1⟩ 1 10 2 :=
  ⟨rfl, by decide, by decide,
    ((filter_meets_reference ⟨4, fun i => (i : ℚ) + 1⟩ 4 1 10 rfl (by decide) (by decide)).2 2
      (by decide) (by decide)).1⟩

/-- C13: `calculate_slope(x1, x2, dt)` is `(x2 - x1) / (-dt)`; it is `0` on equal samples for
`dt ≠ 0`, it is `-1` at `(0, 1, 1)`, and for `dt > 0` it is positive exactly when `x1 > x2`. -/
theorem calculate_slope_sign (x x1 x2 dt : ℚ) :
    calculate_slope x1 x2 dt = (x2 - x1) / (-dt) ∧
    (dt ≠ 0 → calculate_slope x x dt = 0) ∧
    calculate_slope 0 1 1 = -1 ∧
    (0 < dt → (0 < calculate_slope x1 x2 dt ↔ x1 > x2)) := by
  refine ⟨rfl, ?_, ?_, ?_⟩
  · intro _
    simp [calculate_slope]
  · norm_num [calculate_slope]
  · intro hdt
    unfold calculate_slope
    rw [div_neg, neg_pos, div_neg_iff]
    constructor
    · rintro (⟨_, h⟩ | ⟨h, _⟩)
      · exact absurd hdt (not_lt.mpr (le_of_lt h))
      · linarith
    · intro h
      exact Or.inr ⟨by linarith, hdt⟩

/-- Witness of C13: samples `3` and `1` one time unit apart (rising voltage, slope `2`). -/
theorem calculate_slope_sign_witness :
    (1 : ℚ) ≠ 0 ∧ (0 : ℚ) < 1 ∧ calculate_slope 3 3 1 = 0 ∧ 0 < calculate_slope 3 1 1 :=
  ⟨by norm_num, by norm_num, (calculate_slope_sign 3 3 1 1).2.1 (by norm_num),
    ((calculate_slope_sign 3 3 1 1).2.2.2 (by norm_num)).2 (by norm_num)⟩

/-! ## The filter on a constant signal -/

theorem filter_short_of (N : Int) (buf : DVec) (cycle : Int) (v : ℚ) (n : Int)
    (h0 : 0 ≤ cycle) (hN : cycle < N) (hn1 : 1 ≤ n) (hnN : n ≤ N)
    (hbuf : ∀ i : Int, 0 ≤ i → i < N → short_of v (buf.data i)) :
    0.3 * (v * v) ≤ filter N buf cycle v n * v ∧ filter N buf cycle v n * v < v * v := by
  have hn0 : n ≠ 0 := by omega
  obtain ⟨w, rfl⟩ : ∃ w : Nat, n = (w : Int) := ⟨n.toNat, (Int.toNat_of_nonneg (by omega)).symm⟩
  have hw : w ≠ 0 := by omega
  have hq : (0 : ℚ) < (w : ℚ) := by exact_mod_cast Nat.pos_of_ne_zero hw
  have hterm : ∀ k ∈ Finset.range w,
      short_of v (buf.data (Int.tmod (N + cycle - ((k : Int) + 1)) N)) := by
    intro k hk
    have h := filter_index_tmod N cycle w k h0 hN hnN (Finset.mem_range.mp hk)
    exact hbuf _ h.2.1 h.2.2
  have hnonneg : 0 ≤ Finset.sum (Finset.range w)
      (fun k => buf.data (Int.tmod (N + cycle - ((k : Int) + 1)) N) * v) :=
    Finset.sum_nonneg fun k hk => (hterm k hk).1
  have hlt : Finset.sum (Finset.range w)
      (fun k => buf.data (Int.tmod (N + cycle - ((k : Int) + 1)) N) * v) < (w : ℚ) * (v * v) := by
    have h := Finset.sum_lt_sum_of_nonempty (Finset.nonempty_range_iff.mpr hw)
      (fun k hk => (hterm k hk).2)
    simpa [Finset.sum_const, Finset.card_range, nsmul_eq_mul] using h
  have hexp : filter N buf cycle v (w : Int) * v =
      0.3 * (v * v) + (0.7 / (w : ℚ)) * Finset.sum (Finset.range w)
        (fun k => buf.data (Int.tmod (N + cycle - ((k : Int) + 1)) N) * v) := by
    rw [filter_eq_sum N buf cycle v w hn0, Int.toNat_ofNat, add_mul, Finset.sum_mul, Finset.mul_sum]
    congr 1
    · ring
    · apply Finset.sum_congr rfl
      intro k _
      push_cast
      ring
  have hc : (0 : ℚ) < 0.7 / (w : ℚ) := div_pos (by norm_num) hq
  rw [hexp]
  constructor
  · have := mul_nonneg (le_of_lt hc) hnonneg
    linarith
  · have h1 := mul_lt_mul_of_pos_left hlt hc
    have h2 : 0.7 / (w : ℚ) * ((w : ℚ) * (v * v)) = 0.7 * (v * v) := by
      field_simp
      ring
    rw [h2] at h1
    linarith

theorem execute_n_points (s : State) (inp : Input) : (execute s inp).n_points = s.n_points := by
  simp [execute, after_integrate, after_recompute]

theorem execute_filtered_short_of (v : ℚ) (s : State) (inp : Input) (hinp : inp.v = v)
    (h : filtered_short_of v s) : filtered_short_of v (execute s inp) := by
  obtain ⟨hc, hn1, hnN, hbuf⟩ := h
  refine ⟨execute_cycle_in_range s inp hc, ?_, ?_, ?_⟩
  · rw [execute_n_points]; exact hn1
  · rw [execute_n_points, execute_vector_size]; exact hnN
  · intro i hi0 hiN
    rw [execute_vector_size] at hiN
    rw [execute_v_list]
    simp only [DVec.set]
    split_ifs with hic
    · have hf := filter_short_of s.vector_size s.v_list s.cycle v s.n_points hc.1 hc.2 hn1 hnN hbuf
      rw [hinp]
      exact ⟨le_trans (by nlinarith [mul_self_nonneg v]) hf.1, hf.2⟩
    · exact hbuf i hi0 hiN

theorem run_filtered_short_of (v : ℚ) (ins : List Input) (hins : ∀ x ∈ ins, x.v = v) :
    ∀ s : State, filtered_short_of v s → filtered_short_of v (run s ins) := by
  induction ins with
  | nil => intro s h; exact h
  | cons x rest ih =>
    intro s h
    exact ih (fun y hy => hins y (List.mem_cons_of_mem _ hy)) _
      (execute_filtered_short_of v s x (hins x (List.mem_cons_self _ _)) h)

theorem modified_filtered_short_of (h0 h : Host) (mem : State) (v : ℚ) (hv : v ≠ 0)
    (hw1 : 1 ≤ toInt h.n_points_filter) (hwN : toInt h.n_points_filter ≤ 40000) :
    filtered_short_of v (update h (construct h0 mem) .MODIFY) := by
  refine ⟨⟨by simp [update, construct, initParameters], by simp [update, construct, initParameters]⟩,
    by simpa [update] using hw1, by simpa [update, construct, initParameters] using hwN, ?_⟩
  intro i hi0 hiN
  have hiN2 : i < 40000 := by simpa [update, construct, initParameters] using hiN
  have hz : (update h (construct h0 mem) .MODIFY).v_list.data i = 0 := by
    simp [update, construct, initParameters, defaultMembers, DVec.resize, hi0, hiN2]
  rw [hz]
  exact ⟨by simp, by simpa using mul_self_pos.mpr hv⟩

theorem filter_mul_sample (N : Int) (buf : DVec) (cycle : Int) (v : ℚ) (w : Nat) (hw : w ≠ 0) :
    filter N buf cycle v (w : Int) * v =
      0.3 * (v * v) + (0.7 / (w : ℚ)) * Finset.sum (Finset.range w)
        (fun k => buf.data (Int.tmod (N + cycle - ((k : Int) + 1)) N) * v) := by
  have hn0 : (w : Int) ≠ 0 := by omega
  rw [filter_eq_sum N buf cycle v w hn0, Int.toNat_ofNat, add_mul, Finset.sum_mul, Finset.mul_sum]
  congr 1
  · ring
  · apply Finset.sum_congr rfl
    intro k _
    push_cast
    ring

theorem within_mono (v B B2 x : ℚ) (hB : B ≤ B2) (h : within v B x) : within v B2 x :=
  ⟨h.1, le_trans h.2 (mul_le_mul_of_nonneg_right hB (mul_self_nonneg v))⟩

theorem filter_within (N : Int) (buf : DVec) (cycle : Int) (v B : ℚ) (w : Nat) (hw : 1 ≤ w)
    (hbuf : ∀ k : Nat, k < w →
      within v B (buf.data (Int.tmod (N + cycle - ((k : Int) + 1)) N))) :
    within v (0.7 * B) (filter N buf cycle v (w : Int)) := by
  have hw0 : w ≠ 0 := by omega
  have hq : (0 : ℚ) < (w : ℚ) := by exact_mod_cast Nat.pos_of_ne_zero hw0
  have hlt : Finset.sum (Finset.range w)
      (fun k => buf.data (Int.tmod (N + cycle - ((k : Int) + 1)) N) * v) < (w : ℚ) * (v * v) := by
    have h := Finset.sum_lt_sum_of_nonempty (Finset.nonempty_range_iff.mpr hw0)
      (fun (k : Nat) hk => show buf.data (Int.tmod (N + cycle - ((k : Int) + 1)) N) * v < v * v from by
        have := (hbuf k (Finset.mem_range.mp hk)).1
        linarith)
    simpa [Finset.sum_const, Finset.card_range, nsmul_eq_mul] using h
  have hge : (w : ℚ) * (v * v - B * (v * v)) ≤ Finset.sum (Finset.range w)
      (fun k => buf.data (Int.tmod (N + cycle - ((k : Int) + 1)) N) * v) := by
    have h := Finset.sum_le_sum
      (fun (k : Nat) hk => show v * v - B * (v * v) ≤
          buf.data (Int.tmod (N + cycle - ((k : Int) + 1)) N) * v from by
        have := (hbuf k (Finset.mem_range.mp hk)).2
        linarith)
    simpa [Finset.sum_const, Finset.card_range, nsmul_eq_mul] using h
  have hc : (0 : ℚ) < 0.7 / (w : ℚ) := div_pos (by norm_num) hq
  have h1 := mul_lt_mul_of_pos_left hlt hc
  have h2 := mul_le_mul_of_nonneg_left hge (le_of_lt hc)
  have e1 : 0.7 / (w : ℚ) * ((w : ℚ) * (v * v)) = 0.7 * (v * v) := by
    field_simp
    ring
  have e2 : 0.7 / (w : ℚ) * ((w : ℚ) * (v * v - B * (v * v))) = 0.7 * (v * v - B * (v * v)) := by
    field_simp
    ring
  rw [e1] at h1
  rw [e2] at h2
  unfold within
  rw [filter_mul_sample N buf cycle v w hw0]
  constructor
  · linarith
  · linarith

theorem ring_index_succ (N c i : Int) (h0 : 0 ≤ c) (hiN : i ≤ N) :
    Int.tmod (N + (if N = c + 1 then 0 else c + 1) - i) N = Int.tmod (N + c - (i - 1)) N := by
  split_ifs with h
  · rw [Int.tmod_eq_emod (by omega) (by omega), Int.tmod_eq_emod (by omega) (by omega)]
    have e : N + c - (i - 1) = (N + 0 - i) + N := by omega
    rw [e, Int.add_emod_self]
  · congr 1
    omega

theorem ring_index_ne (N c k : Int) (h0 : 0 ≤ c) (hN : c < N) (hk1 : 1 ≤ k) (hkN : k < N) :
    Int.tmod (N + c - k) N ≠ c := by
  rw [Int.tmod_eq_emod (by omega) (by omega)]
  by_cases hkc : k ≤ c
  · have e : N + c - k = (c - k) + N := by omega
    rw [e, Int.add_emod_self, Int.emod_eq_of_lt (by omega) (by omega)]
    omega
  · rw [Int.emod_eq_of_lt (by omega) (by omega)]
    omega

theorem execute_window_within (v : ℚ) (w m j : Nat) (s : State) (inp : Input) (hinp : inp.v = v)
    (hw : 1 ≤ w) (h : window_within v w m j s) :
    window_within v w m (j + 1) (execute s inp) := by
  obtain ⟨hc, hn, hwN, hwin⟩ := h
  have hf : within v (0.7 ^ (m + 1))
      (filter s.vector_size s.v_list s.cycle inp.v s.n_points) := by
    rw [hn, hinp, pow_succ']
    exact filter_within _ _ _ v _ w hw (fun k hk => (hwin k hk).1)
  have hpow : (0.7 : ℚ) ^ (m + 1) ≤ 0.7 ^ m := by
    rw [pow_succ']
    have : (0 : ℚ) ≤ 0.7 ^ m := pow_nonneg (by norm_num) m
    nlinarith
  refine ⟨execute_cycle_in_range s inp hc, by rw [execute_n_points]; exact hn,
    by rw [execute_vector_size]; exact hwN, ?_⟩
  intro k hk
  rw [execute_vector_size, execute_cycle, execute_v_list]
  have hkw : (k : Int) < (w : Int) := by exact_mod_cast hk
  have hidx := ring_index_succ s.vector_size s.cycle ((k : Int) + 1) hc.1 (by omega)
  rw [hidx]
  simp only [DVec.set]
  cases k with
  | zero =>
    have e : Int.tmod (s.vector_size + s.cycle - (((0 : Nat) : Int) + 1 - 1)) s.vector_size
        = s.cycle := by
      have : s.vector_size + s.cycle - (((0 : Nat) : Int) + 1 - 1) = s.vector_size + s.cycle := by
        simp
      rw [this]
      exact tmod_ring _ _ hc.1 hc.2
    rw [e, if_pos rfl]
    exact ⟨within_mono v _ _ _ hpow hf, fun _ => hf⟩
  | succ k2 =>
    have e : (((k2 + 1 : Nat) : Int) + 1 - 1) = (k2 : Int) + 1 := by push_cast; ring
    rw [e]
    have hne := ring_index_ne s.vector_size s.cycle ((k2 : Int) + 1) hc.1 hc.2 (by omega)
      (by push_cast at hkw; omega)
    rw [if_neg hne]
    have hold := hwin k2 (by omega)
    exact ⟨hold.1, fun hlt => hold.2 (by omega)⟩

theorem window_within_round (v : ℚ) (w m : Nat) (s : State) (h : window_within v w m w s) :
    window_within v w (m + 1) 0 s := by
  obtain ⟨hc, hn, hwN, hwin⟩ := h
  exact ⟨hc, hn, hwN, fun k hk => ⟨(hwin k hk).2 hk, fun h0 => absurd h0 (Nat.not_lt_zero k)⟩⟩

theorem run_window_within (v : ℚ) (w : Nat) (hw : 1 ≤ w) (ins : List Input)
    (hins : ∀ x ∈ ins, x.v = v) :
    ∀ (s : State) (m j : Nat), j < w → window_within v w m j s →
      ∃ m2 j2 : Nat, j2 < w ∧ m2 * w + j2 = m * w + j + ins.length ∧
        window_within v w m2 j2 (run s ins) := by
  induction ins with
  | nil => intro s m j hj h; exact ⟨m, j, hj, by simp, h⟩
  | cons x rest ih =>
    intro s m j hj h
    have hstep := execute_window_within v w m j s x (hins x (List.mem_cons_self _ _)) hw h
    have hrest : ∀ y ∈ rest, y.v = v := fun y hy => hins y (List.mem_cons_of_mem _ hy)
    by_cases hjw : j + 1 < w
    · obtain ⟨m2, j2, h1, h2, h3⟩ := ih hrest (execute s x) m (j + 1) hjw hstep
      exact ⟨m2, j2, h1, by simp only [List.length_cons]; omega, h3⟩
    · have hjeq : j + 1 = w := by omega
      rw [hjeq] at hstep
      obtain ⟨m2, j2, h1, h2, h3⟩ :=
        ih hrest (execute s x) (m + 1) 0 (by omega) (window_within_round v w m _ hstep)
      refine ⟨m2, j2, h1, ?_, h3⟩
      simp only [List.length_cons]
      have : (m + 1) * w = m * w + w := by ring
      omega

theorem modified_window_within (h0 h : Host) (mem : State) (v : ℚ) (hv : v ≠ 0) (w : Nat)
    (hw : toInt h.n_points_filter = (w : Int)) (hwN : w ≤ 40000) :
    window_within v w 0 0 (update h (construct h0 mem) .MODIFY) := by
  have hwN2 : (w : Int) ≤ 40000 := by exact_mod_cast hwN
  refine ⟨⟨by simp [update, construct, initParameters], by simp [update, construct, initParameters]⟩,
    by simpa [update] using hw, by simpa [update, construct, initParameters] using hwN2, ?_⟩
  intro k hk
  have hidx := filter_index_tmod 40000 0 w k (le_refl 0) (by norm_num) hwN2 hk
  have hz : (update h (construct h0 mem) .MODIFY).v_list.data
      (Int.tmod ((update h (construct h0 mem) .MODIFY).vector_size +
        (update h (construct h0 mem) .MODIFY).cycle - ((k : Int) + 1))
        (update h (construct h0 mem) .MODIFY).vector_size) = 0 := by
    have hvs : (update h (construct h0 mem) .MODIFY).vector_size = 40000 := by
      simp [update, construct, initParameters]
    have hcy : (update h (construct h0 mem) .MODIFY).cycle = 0 := rfl
    rw [hvs, hcy]
    have h1 : 0 ≤ Int.tmod (40000 - ((k : Int) + 1)) 40000 := by simpa using hidx.2.1
    have h2 : Int.tmod (40000 - ((k : Int) + 1)) 40000 < 40000 := by simpa using hidx.2.2
    simp [update, construct, initParameters, defaultMembers, DVec.resize]
    intro hcon
    exact absurd (hcon h1) (not_le.mpr h2)
  rw [hz]
  have hvv : 0 < v * v := mul_self_pos.mpr hv
  exact ⟨⟨by simpa using hvv, by simp⟩, fun h0 => absurd h0 (Nat.not_lt_zero k)⟩

theorem abs_le_of_within (v B x : ℚ) (hv : v ≠ 0) (h : within v B x) : |v - x| ≤ B * |v| := by
  obtain ⟨h1, h2⟩ := h
  have hpos : 0 < |v| := abs_pos.mpr hv
  have e : |v - x| * |v| = v * v - x * v := by
    rw [← abs_mul, abs_of_pos (by linarith [h1, (by ring : (v - x) * v = v * v - x * v)])]
    ring
  have e2 : v * v = |v| * |v| := (abs_mul_abs_self v).symm
  have : |v - x| * |v| ≤ (B * |v|) * |v| := by
    rw [e, mul_assoc, ← e2]
    exact h2
  exact le_of_mul_le_mul_right this hpos

/-- C12 (refuted as stated): with a filter window of one point and the constant sample `1` from
the constructed state, `output(0)` is `0.3` on the first step, `0.51` on the second and `0.657` on
the third: it does not equal `1` from the second step (`w + 1`) on. -/
theorem constant_signal_counterexample :
    scenario12.n_points = 1 ∧
    (run scenario12 [⟨1, 0⟩]).output 0 = 0.3 ∧
    (run scenario12 [⟨1, 0⟩, ⟨1, 0⟩]).output 0 = 0.51 ∧
    (run scenario12 [⟨1, 0⟩, ⟨1, 0⟩, ⟨1, 0⟩]).output 0 = 0.657 ∧
    ¬ (run scenario12 [⟨1, 0⟩, ⟨1, 0⟩]).output 0 = 1 := by
  decide!

/-- C12 (amended): with a filter window `1 ≤ w ≤ 40000`, starting from the constructed
(zero-filled) state and feeding the same sample `v ≠ 0` on every step, `output(0)` approaches `v`
geometrically and never equals it, in exact arithmetic: on the step that follows `n` earlier
steps it lies between `0.3 * v` and `v`, short of `v`, and `|v - output(0)|` is at most
`0.7 ^ (n / w + 1) * |v|`. The buffer that `filter` averages holds filtered values, not raw
samples. -/
theorem constant_signal_short_of_target (h0 h : Host) (mem : State) (v : ℚ) (hv : v ≠ 0)
    (w : Nat) (hw : toInt h.n_points_filter = (w : Int)) (hw1 : 1 ≤ w) (hwN : w ≤ 40000)
    (ins : List Input) (inp : Input) (hins : ∀ x ∈ ins, x.v = v) (hinp : inp.v = v) :
    (execute (run (update h (construct h0 mem) .MODIFY) ins) inp).output 0 ≠ v ∧
    (0 < v →
      0.3 * v ≤ (execute (run (update h (construct h0 mem) .MODIFY) ins) inp).output 0 ∧
      (execute (run (update h (construct h0 mem) .MODIFY) ins) inp).output 0 < v) ∧
    (v < 0 →
      v < (execute (run (update h (construct h0 mem) .MODIFY) ins) inp).output 0 ∧
      (execute (run (update h (construct h0 mem) .MODIFY) ins) inp).output 0 ≤ 0.3 * v) ∧
    |v - (execute (run (update h (construct h0 mem) .MODIFY) ins) inp).output 0| ≤
      0.7 ^ (ins.length / w + 1) * |v| := by
  have hgeo : |v - (execute (run (update h (construct h0 mem) .MODIFY) ins) inp).output 0| ≤
      0.7 ^ (ins.length / w + 1) * |v| := by
    obtain ⟨m2, j2, hj2, hsum, hc, hn, _, hwin⟩ :=
      run_window_within v w hw1 ins hins _ 0 0 (by omega)
        (modified_window_within h0 h mem v hv w hw hwN)
    have hdiv : ins.length / w = m2 := by
      have e : ins.length = w * m2 + j2 := by
        have : m2 * w = w * m2 := Nat.mul_comm _ _
        omega
      rw [e, Nat.mul_add_div (by omega), Nat.div_eq_of_lt hj2, Nat.add_zero]
    rw [hdiv, execute_output_0, hn, hinp, pow_succ']
    exact abs_le_of_within v _ _ hv
      (filter_within _ _ _ v _ w hw1 (fun k hk => (hwin k hk).1))
  have hw1i : 1 ≤ toInt h.n_points_filter := by rw [hw]; exact_mod_cast hw1
  have hwNi : toInt h.n_points_filter ≤ 40000 := by rw [hw]; exact_mod_cast hwN
  obtain ⟨hc, hn1, hnN, hbuf⟩ :=
    run_filtered_short_of v ins hins _ (modified_filtered_short_of h0 h mem v hv hw1i hwNi)
  have hf := filter_short_of _ _ _ v _ hc.1 hc.2 hn1 hnN hbuf
  rw [execute_output_0, hinp] at hgeo ⊢
  generalize filter _ _ _ v _ = out at hf hgeo
  obtain ⟨hlo, hhi⟩ := hf
  refine ⟨?_, ?_, ?_, hgeo⟩
  · intro he
    rw [he] at hhi
    exact lt_irrefl _ hhi
  · intro hpos
    constructor
    · by_contra hcon
      have := mul_lt_mul_of_pos_right (not_le.mp hcon) hpos
      linarith
    · by_contra hcon
      have := mul_le_mul_of_nonneg_right (not_lt.mp hcon) (le_of_lt hpos)
      linarith
  · intro hneg
    constructor
    · by_contra hcon
      have := mul_le_mul_of_nonpos_right (not_lt.mp hcon) (le_of_lt hneg)
      linarith
    · by_contra hcon
      have := mul_lt_mul_of_neg_right (not_le.mp hcon) hneg
      linarith

/-- Witness of the amended C12: window of one point, constant sample `1`, third step: the output
differs from `1` and is within `0.7 ^ 3` of it. -/
theorem constant_signal_short_of_target_witness :
    ((1 : ℚ) ≠ 0 ∧ toInt ({ host5 with n_points_filter := 1 } : Host).n_points_filter = ((1 : Nat) : Int)) ∧
    (execute (run scenario12 [⟨1, 0⟩, ⟨1, 0⟩]) ⟨1, 0⟩).output 0 ≠ 1 ∧
    |1 - (execute (run scenario12 [⟨1, 0⟩, ⟨1, 0⟩]) ⟨1, 0⟩).output 0| ≤ 0.7 ^ 3 * |(1 : ℚ)| := by
  have h := constant_signal_short_of_target host5 { host5 with n_points_filter := 1 } zeroMem 1
    (by norm_num) 1 (by decide!) (by decide) (by decide)
    [(⟨1, 0⟩ : Input), (⟨1, 0⟩ : Input)] ⟨1, 0⟩ (by intro x hx; simp at hx; rw [hx]) rfl
  exact ⟨by decide!, h.1, h.2.2.2⟩

/-! ## Outputs, triggering, indices, persistence -/

/-- C14 (the code departs from the claim): with `slope_th_param = -2000` the slope override of
lines 246-247 is applied on every step, but `output(2)` is written only inside the recomputation
block, before the override. After the first step `sl_calculated = -2000` while `output(2)` still
has its initial value `0`; after the step on which the recomputation fires `output(2)` is the
fresh slope `0.024` while `sl_calculated = -2000`. -/
theorem output_2_misses_override :
    scenario14.slope_th_param = -2000 ∧
    (execute scenario14 ⟨-0.05, 0⟩).sl_calculated = -2000 ∧
    (execute scenario14 ⟨-0.05, 0⟩).output 2 = 0 ∧
    recomputation_fires (run scenario14 ramp) ⟨-0.018, 0⟩ ∧
    (execute (run scenario14 ramp) ⟨-0.018, 0⟩).sl_calculated = -2000 ∧
    (execute (run scenario14 ramp) ⟨-0.018, 0⟩).output 2 = 0.024 := by
  decide!

/-- C15 (the code departs from the claim): with `time_from_peak = 1 > 0`, after the ramp the
samples `-0.018` and `-0.019` are both above `th_spike = -0.02`, and each of the two consecutive
steps increments `n_spikes`: no sample below the threshold lies between the two counts. -/
theorem repeated_triggering_above_threshold :
    (run scenario6 ramp).th_spike = -0.02 ∧
    (run scenario6 ramp).n_spikes = 0 ∧
    (run scenario6 (ramp ++ [⟨-0.018, 0⟩])).n_spikes = 1 ∧
    (run scenario6 (ramp ++ [⟨-0.018, 0⟩, ⟨-0.019, 0⟩])).n_spikes = 2 ∧
    ¬ (-0.018 : ℚ) < (run scenario6 ramp).th_spike ∧
    ¬ (-0.019 : ℚ) < (run scenario6 ramp).th_spike := by
  decide!

/-- C16 (the code departs from the claim): in the ramp scenario (`n_points = 0`, `n_p_slope = 5`,
`time_from_peak = 0`, `vector_size = 40000`) after the single sample `-0.05` the state has
`cycle = 1` and is armed; on the next sample `-0.01`, above the threshold, the spike test reads
`v_list[cycle - 3] = v_list[-2]`, which is not a valid index. -/
theorem spike_test_index_out_of_range :
    cycle_in_range (run scenario5 [⟨-0.05, 0⟩]) ∧
    (run scenario5 [⟨-0.05, 0⟩]).cycle = 1 ∧
    (run scenario5 [⟨-0.05, 0⟩]).v_list.size = 40000 ∧
    (0 ≤ (run scenario5 [⟨-0.05, 0⟩]).n_points ∧ 0 ≤ (run scenario5 [⟨-0.05, 0⟩]).n_p_slope ∧
      2 * (run scenario5 [⟨-0.05, 0⟩]).n_p_slope ≤ (run scenario5 [⟨-0.05, 0⟩]).vector_size ∧
      time_from_peak_points (run scenario5 [⟨-0.05, 0⟩]) = 0) ∧
    (-2 : Int) ∈ v_list_indices (run scenario5 [⟨-0.05, 0⟩]) ⟨-0.01, 0⟩ ∧
    ¬ (run scenario5 [⟨-0.05, 0⟩]).v_list.inRange (-2) := by
  decide!

/-- C17 (the code departs from the claim): in the ramp scenario the tenth spike is counted on the
40th step; the recomputation of that step runs with `n_spikes = 10`, writes slot `0` and reads
`th_sum_buff[-1]` and `th_sum_buff[-2]`, which are not valid indices, where the slots of the two
previous spikes are `(10 - 1) mod 10 = 9` and `(10 - 2) mod 10 = 8`. -/
theorem three_spike_mean_reads_out_of_range :
    (run scenario5 before_tenth_spike).th_sum_param = 5 ∧
    recomputation_fires (run scenario5 before_tenth_spike) ⟨0.01, 0⟩ ∧
    n_spikes_at_recompute (run scenario5 before_tenth_spike) ⟨0.01, 0⟩ = 10 ∧
    th_sum_buff_indices (run scenario5 before_tenth_spike) ⟨0.01, 0⟩ = [0, -1, -2] ∧
    ¬ (run scenario5 before_tenth_spike).th_sum_buff.inRange (-1) ∧
    ¬ (run scenario5 before_tenth_spike).th_sum_buff.inRange (-2) ∧
    ((10 : Int) - 1) % 10 = 9 ∧ ((10 : Int) - 2) % 10 = 8 := by
  decide!

theorem recompute_idle (s : State) (t : Int) (h : ¬ s.update_in_this_cycle = true) :
    recompute s t = s := by
  unfold recompute
  rw [if_neg h]

theorem execute_th_calculated_idle (s : State) (inp : Input) (h : ¬ recomputation_fires s inp) :
    (execute s inp).th_calculated = s.th_calculated := by
  unfold recomputation_fires at h
  simp [execute, after_integrate, after_recompute, recompute_idle _ _ h]

theorem execute_sl_calculated_idle (s : State) (inp : Input) (h : ¬ recomputation_fires s inp)
    (hs : ¬ s.slope_th_param < -1000) : (execute s inp).sl_calculated = s.sl_calculated := by
  unfold recomputation_fires at h
  simp [execute, after_integrate, after_recompute, recompute_idle _ _ h,
    overrides_sl_calculated, hs]

theorem execute_th_sum_calculated_idle (s : State) (inp : Input)
    (h : ¬ recomputation_fires s inp) (hs : ¬ s.th_sum_param < 0) :
    (execute s inp).th_sum_calculated = s.th_sum_calculated := by
  unfold recomputation_fires at h
  simp [execute, after_integrate, after_recompute, recompute_idle _ _ h,
    overrides_th_sum_calculated, hs]

/-- C18 (refuted as stated): with `slope_th_param = -2000` (not above `-1000`) and
`th_sum_param = -2` (not `≥ 0`) neither override is active in the sense of the specification, and
no recomputation fires on the first step; yet that step takes `th_sum_calculated` from `-0.05` to
`-2` and `sl_calculated` from `0` to `-2000`. -/
theorem thresholds_persist_counterexample :
    ¬ recomputation_fires scenario18 ⟨-0.05, 0⟩ ∧
    ¬ scenario18.slope_th_param > -1000 ∧ ¬ scenario18.th_sum_param ≥ 0 ∧
    scenario18.th_sum_calculated = -0.05 ∧
    (execute scenario18 ⟨-0.05, 0⟩).th_sum_calculated = -2 ∧
    scenario18.sl_calculated = 0 ∧
    (execute scenario18 ⟨-0.05, 0⟩).sl_calculated = -2000 ∧
    (execute scenario18 ⟨-0.05, 0⟩).th_calculated = scenario18.th_calculated := by
  decide!

/-- C18 (amended): on a step where no recomputation fires `th_calculated` is unchanged;
`th_sum_calculated` is unchanged as well when `th_sum_param ≥ 0` (a negative parameter is forced
onto it by line 241), and `sl_calculated` when `slope_th_param` is `-1000`, the value that
stands for "calculate the threshold". -/
theorem thresholds_persist_amended (s : State) (inp : Input) (h : ¬ recomputation_fires s inp) :
    (execute s inp).th_calculated = s.th_calculated ∧
    (0 ≤ s.th_sum_param → (execute s inp).th_sum_calculated = s.th_sum_calculated) ∧
    (s.slope_th_param = -1000 → (execute s inp).sl_calculated = s.sl_calculated) :=
  ⟨execute_th_calculated_idle s inp h,
    fun hs => execute_th_sum_calculated_idle s inp h (not_lt.mpr hs),
    fun hs => execute_sl_calculated_idle s inp h (by rw [hs]; exact lt_irrefl _)⟩

/-- Witness of the amended C18: the first step of the ramp scenario (`th_sum_param = 5`,
`slope_th_param = -1000`, no recomputation). -/
theorem thresholds_persist_amended_witness :
    (¬ recomputation_fires scenario5 ⟨-0.05, 0⟩ ∧ 0 ≤ scenario5.th_sum_param ∧
      scenario5.slope_th_param = -1000) ∧
    (execute scenario5 ⟨-0.05, 0⟩).th_calculated = scenario5.th_calculated ∧
    (execute scenario5 ⟨-0.05, 0⟩).th_sum_calculated = scenario5.th_sum_calculated ∧
    (execute scenario5 ⟨-0.05, 0⟩).sl_calculated = scenario5.sl_calculated :=
  ⟨by decide!, (thresholds_persist_amended scenario5 ⟨-0.05, 0⟩ (by decide!)).1,
    (thresholds_persist_amended scenario5 ⟨-0.05, 0⟩ (by decide!)).2.1 (by decide!),
    (thresholds_persist_amended scenario5 ⟨-0.05, 0⟩ (by decide!)).2.2 (by decide!)⟩

theorem execute_curr_slope (s : State) (inp : Input) :
    (execute s inp).curr_slope =
      calculate_slope
        ((save_data s inp).v_list.data (Int.tmod (s.vector_size + s.cycle) s.vector_size))
        ((save_data s inp).v_list.data
          (Int.tmod (s.vector_size + s.cycle - s.n_p_slope) s.vector_size))
        (slope_dt s) := by
  simp [execute, after_integrate, after_recompute]
  rfl

/-- C19 (the code departs from the claim): after construction `n_p_slope = 0` and the period is
`0.1 > 0`; the slope stage of the step calls `calculate_slope` with `dt = n_p_slope*period = 0`,
so the divisor `-dt` of line 126 is zero. -/
theorem zero_slope_window_divides_by_zero :
    (construct host0 zeroMem).n_p_slope = 0 ∧
    0 < (construct host0 zeroMem).period ∧
    slope_dt (construct host0 zeroMem) = 0 ∧
    -(slope_dt (construct host0 zeroMem)) = 0 ∧
    (execute (construct host0 zeroMem) ⟨1, 0⟩).curr_slope =
      calculate_slope 1 1 (slope_dt (construct host0 zeroMem)) := by
  decide!

/-! ## `got_spike` is never set -/

theorem execute_got_spike_false (s : State) (inp : Input) (h : s.got_spike = false) :
    (execute s inp).got_spike = false := by
  simp [execute, after_integrate, after_recompute, detect_got_spike, h]

theorem run_got_spike_false (ins : List Input) :
    ∀ s : State, s.got_spike = false → (run s ins).got_spike = false := by
  induction ins with
  | nil => intro s h; exact h
  | cons x rest ih => intro s h; exact ih _ (execute_got_spike_false s x h)

theorem not_fires_of_waiting (s : State) (inp : Input) (h : waiting_forever s) :
    ¬ recomputation_fires s inp := by
  obtain ⟨hg, hu, ht, _⟩ := h
  unfold recomputation_fires
  simp [detect_update_in_this_cycle, hg, hu, not_le.mpr ht]

theorem execute_waiting_forever (s : State) (inp : Input) (h : waiting_forever s) :
    waiting_forever (execute s inp) := by
  have hnf := not_fires_of_waiting s inp h
  obtain ⟨hg, hu, ht, hth⟩ := h
  refine ⟨execute_got_spike_false s inp hg, ?_, ?_, ?_⟩
  · simp [execute, after_integrate, after_recompute, recompute_update_in_this_cycle]
  · simpa [execute, after_integrate, after_recompute] using ht
  · rw [execute_th_calculated_idle s inp hnf]; exact hth

theorem run_waiting_forever (ins : List Input) :
    ∀ s : State, waiting_forever s → waiting_forever (run s ins) := by
  induction ins with
  | nil => intro s h; exact h
  | cons x rest ih => intro s h; exact ih _ (execute_waiting_forever s x h)

theorem execute_switch_th_kept (s : State) (inp : Input) (h : ¬ recomputation_fires s inp)
    (hsw : s.switch_th = true) : (execute s inp).switch_th = true := by
  unfold recomputation_fires at h
  simp [execute, after_integrate, after_recompute, recompute_idle _ _ h, rearm_switch_th, hsw]

/-- C20: `got_spike` is false in every state reached from the constructed state, with or without
an `update(MODIFY)`, whatever the inputs. So with `time_from_peak > 0` no recomputation fires on
any step, `th_calculated` keeps its initial value `0`, and a step never takes `switch_th` from
true to false. -/
theorem got_spike_never_set (h0 h : Host) (mem : State) (ins : List Input) :
    (run (construct h0 mem) ins).got_spike = false ∧
    (run (update h (construct h0 mem) .MODIFY) ins).got_spike = false ∧
    (0 < h.time_from_peak →
      (run (update h (construct h0 mem) .MODIFY) ins).th_calculated = 0 ∧
      ∀ inp : Input,
        ¬ recomputation_fires (run (update h (construct h0 mem) .MODIFY) ins) inp ∧
        ((run (update h (construct h0 mem) .MODIFY) ins).switch_th = true →
          (execute (run (update h (construct h0 mem) .MODIFY) ins) inp).switch_th = true)) := by
  refine ⟨run_got_spike_false ins _ rfl, run_got_spike_false ins _ rfl, ?_⟩
  intro ht
  have hinit : waiting_forever (update h (construct h0 mem) .MODIFY) :=
    ⟨rfl, rfl, ht, rfl⟩
  have hrun := run_waiting_forever ins _ hinit
  refine ⟨hrun.2.2.2, ?_⟩
  intro inp
  exact ⟨not_fires_of_waiting _ inp hrun,
    execute_switch_th_kept _ inp (not_fires_of_waiting _ inp hrun)⟩

/-- Witness of C20: `time_from_peak = 1`; after the ramp and the samples `-0.018`, `-0.019` two
spikes have been counted and `th_calculated` is still `0`. -/
theorem got_spike_never_set_witness :
    (0 : ℚ) < ({ host5 with time_from_peak := 1 } : Host).time_from_peak ∧
    (run scenario6 (ramp ++ [⟨-0.018, 0⟩, ⟨-0.019, 0⟩])).n_spikes = 2 ∧
    (run scenario6 (ramp ++ [⟨-0.018, 0⟩, ⟨-0.019, 0⟩])).th_calculated = 0 := by
  have h := got_spike_never_set host5 { host5 with time_from_peak := 1 } zeroMem
    (ramp ++ [(⟨-0.018, 0⟩ : Input), (⟨-0.019, 0⟩ : Input)])
  exact ⟨by decide!, by decide!, (h.2.2 (by decide!)).1⟩
end SpikePredictor
